import Mathlib

/-!
The reconciliation core of vcluster-health-mirror.

A shallow embedding of `internal/controller/vclusterhealth_controller.go` and of the
types of `api/v1alpha1/vclusterhealth_types.go` it reads and writes, followed by the
properties of the scorer, the signal extractors, discovery and the reconcile cycle.

Conventions of the embedding:

* Go `string` is `String`. The names handled here are Kubernetes object names; for valid
  UTF-8 a byte-level substring test and a character-level one agree.
* Go `int32` / `int64` values are `Int`; where a conversion can leave the range it is
  wrapped explicitly (`wrapInt64`).
* Go `map[string]string` is `Option (List (String × String))`: `none` is the nil map and a
  lookup returns the first binding of the key, `none` standing for `ok = false`.
* A `for ... range` loop is a structurally recursive function over the list whose extra
  arguments are the variables the loop body assigns; `continue` is the recursive call
  with the variables unchanged and `return` ends the recursion.
* The Go parameter `namespace` is written `ns`, the field `Type` is written `Type_`:
  both words are reserved here.
-/

set_option autoImplicit false

namespace HealthMirror

/-! ## Kubernetes constants used by the controller -/

/-- The value of `corev1.PodRunning`. -/
def PodRunning : String := "Running"

/-- The value of `corev1.PodReady`. -/
def PodReady : String := "Ready"

/-- The value of `corev1.ConditionTrue`. -/
def ConditionTrue : String := "True"

/-- The value of `corev1.ClusterIPNone`. -/
def ClusterIPNone : String := "None"

/-! ## Data model -/

/-- One entry of `pod.Status.Conditions`; `Type_` is the Go field `Type`. -/
structure PodCondition where
  Type_ : String
  Status : String
  deriving DecidableEq, Repr

/-- The fields of `corev1.Pod` the controller reads. -/
structure Pod where
  Name : String
  Namespace : String
  Labels : Option (List (String × String)) := none
  Phase : String := ""
  Conditions : List PodCondition := []
  deriving DecidableEq, Repr

/-- The fields of `corev1.Service` the controller reads; `Ports` holds the `Port` number
of every entry of `Spec.Ports`, in order. -/
structure Service where
  Name : String
  Namespace : String
  ClusterIP : String := ""
  Ports : List Int := []
  deriving DecidableEq, Repr

/-- The type `DiscoveredCluster` of the API package. -/
structure DiscoveredCluster where
  Name : String
  Namespace : String
  ServiceName : String
  ServicePort : Int
  deriving DecidableEq, Repr

/-- The type `SyncCoverage` of the API package; `LastChecked` is an abstract timestamp. -/
structure SyncCoverage where
  ClusterName : String
  ControlPlaneReady : Bool
  ApiSync : Bool
  DnsSync : Bool
  NodeSync : Bool
  WorkloadSync : Bool
  SystemWorkloadSync : Bool
  TenantWorkloadSync : Bool
  Score : Int
  Level : String
  LastChecked : Nat
  deriving DecidableEq, Repr

/-! ## Library functions -/

/-- Whether `needle` is a prefix of `hay` (`strings.HasPrefix` on character lists). -/
def hasPrefixChars : List Char → List Char → Bool
  | _, [] => true
  | [], _ :: _ => false
  | h :: hs, n :: ns => if h = n then hasPrefixChars hs ns else false

/-- Whether `needle` occurs in `hay` at some offset. -/
def containsChars : List Char → List Char → Bool
  | [], needle => hasPrefixChars [] needle
  | h :: hs, needle => if hasPrefixChars (h :: hs) needle then true else containsChars hs needle

/-- Go `strings.Contains(s, substr)`: `substr` occurs within `s`. -/
def stringsContains (s substr : String) : Bool :=
  containsChars s.data substr.data

/-- Go map index `m[k]` with the comma-ok form: `some v` when the key is present, `none`
when it is not or when the map is nil. -/
def mapLookup (m : Option (List (String × String))) (k : String) : Option String :=
  match m with
  | none => none
  | some kvs => kvs.lookup k

/-- Go map index `m[k]` in the single-value form: the zero value `""` when the key is absent. -/
def mapIndex (m : Option (List (String × String))) (k : String) : String :=
  (mapLookup m k).getD ""

/-! ## Scorer -/

/-- The function `computeScoreLevel`: every true signal adds one point; the score is the
truncated percentage of points out of six. The intermediate values stay within `0..600`,
far inside `int32`. -/
def computeScoreLevel (api controlPlane dns node systemWorkload tenantWorkload : Bool) :
    Int × String :=
  let total : Int := 6
  let points : Int := 0
  let points := if api then points + 1 else points
  let points := if controlPlane then points + 1 else points
  let points := if dns then points + 1 else points
  let points := if node then points + 1 else points
  let points := if systemWorkload then points + 1 else points
  let points := if tenantWorkload then points + 1 else points
  let score := Int.tdiv (points * 100) total
  let level := "None"
  let level := if points = total then "Full" else if points > 0 then "Partial" else level
  (score, level)

/-- The number of true signals among six. -/
def trueCount (a b c d e f : Bool) : Nat :=
  a.toNat + b.toNat + c.toNat + d.toNat + e.toNat + f.toNat

/-! ## Signal extractors -/

/-- The inner loop of `isControlPlaneReady` over `p.Status.Conditions`, together with the
`return false` that follows it: true at the first condition of type `Ready` with status
`True`. -/
def hasReadyCondition : List PodCondition → Bool
  | [] => false
  | c :: cs =>
    if c.Type_ = PodReady ∧ c.Status = ConditionTrue then true else hasReadyCondition cs

/-- The loop of `isControlPlaneReady` over the pods. -/
def isControlPlaneReadyLoop (ns target : String) : List Pod → Bool
  | [] => false
  | p :: rest =>
    if p.Namespace ≠ ns then isControlPlaneReadyLoop ns target rest
    else if p.Name ≠ target then isControlPlaneReadyLoop ns target rest
    else if p.Phase ≠ PodRunning then false
    else hasReadyCondition p.Conditions

/-- The function `isControlPlaneReady`. -/
def isControlPlaneReady (vclusterName ns : String) (pods : List Pod) : Bool :=
  let target := vclusterName ++ "-0"
  isControlPlaneReadyLoop ns target pods

/-- The function `hasDNSSync`. -/
def hasDNSSync (vclusterName ns : String) : List Service → Bool
  | [] => false
  | s :: rest =>
    if s.Namespace ≠ ns then hasDNSSync vclusterName ns rest
    else if stringsContains s.Name "kube-dns" && stringsContains s.Name vclusterName then true
    else hasDNSSync vclusterName ns rest

/-- The loop of `hasNodeSync` over the services. -/
def hasNodeSyncLoop (ns needle : String) : List Service → Bool
  | [] => false
  | s :: rest =>
    if s.Namespace ≠ ns then hasNodeSyncLoop ns needle rest
    else if stringsContains s.Name needle then true
    else hasNodeSyncLoop ns needle rest

/-- The function `hasNodeSync`. -/
def hasNodeSync (vclusterName ns : String) (services : List Service) : Bool :=
  let needle := vclusterName ++ "-node-"
  hasNodeSyncLoop ns needle services

/-- The slice `labelKeys` declared by `hasWorkloadSync` and by `workloadSyncSplit`. -/
def labelKeys : List String :=
  [ "vcluster.loft.sh/managed-by",
    "vcluster.loft.sh/vcluster-name",
    "vcluster.loft.sh/cluster",
    "vcluster.loft.sh/owner" ]

/-- The loop `for _, k := range labelKeys` of both workload functions: true at the first
key `k` with `v, ok := labels[k]; ok && v == vclusterName`. -/
def labelKeysLoop (labels : Option (List (String × String))) (vclusterName : String) :
    List String → Bool
  | [] => false
  | k :: ks =>
    if mapLookup labels k = some vclusterName then true
    else labelKeysLoop labels vclusterName ks

/-- The test `p.Labels != nil` followed by `app, ok := p.Labels["app"]; ok && app == "vcluster"`. -/
def isAppVCluster (p : Pod) : Bool :=
  p.Labels.isSome && decide (mapLookup p.Labels "app" = some "vcluster")

/-- The loop of `hasWorkloadSync` over the pods. -/
def hasWorkloadSyncLoop (vclusterName controlPlaneNamespace nsNeedle controlPlanePod : String) :
    List Pod → Bool
  | [] => false
  | p :: rest =>
    if p.Namespace = controlPlaneNamespace ∧ p.Name = controlPlanePod then
      hasWorkloadSyncLoop vclusterName controlPlaneNamespace nsNeedle controlPlanePod rest
    else if isAppVCluster p then
      hasWorkloadSyncLoop vclusterName controlPlaneNamespace nsNeedle controlPlanePod rest
    else if p.Labels.isSome && labelKeysLoop p.Labels vclusterName labelKeys then true
    else if stringsContains p.Namespace nsNeedle then true
    else hasWorkloadSyncLoop vclusterName controlPlaneNamespace nsNeedle controlPlanePod rest

/-- The function `hasWorkloadSync` (legacy single-boolean detection). -/
def hasWorkloadSync (vclusterName controlPlaneNamespace : String) (pods : List Pod) : Bool :=
  let nsNeedle := "-x-" ++ vclusterName
  let controlPlanePod := vclusterName ++ "-0"
  hasWorkloadSyncLoop vclusterName controlPlaneNamespace nsNeedle controlPlanePod pods

/-- The loop of `workloadSyncSplit` over the pods; `system` and `tenant` are the two
variables the loop assigns. -/
def workloadSyncSplitLoop (vclusterName controlPlaneNamespace controlPlanePod : String) :
    List Pod → Bool → Bool → Bool × Bool
  | [], system, tenant => (system, tenant)
  | p :: rest, system, tenant =>
    if p.Namespace = controlPlaneNamespace ∧ p.Name = controlPlanePod then
      workloadSyncSplitLoop vclusterName controlPlaneNamespace controlPlanePod rest system tenant
    else if isAppVCluster p then
      workloadSyncSplitLoop vclusterName controlPlaneNamespace controlPlanePod rest system tenant
    else
      let belongs := p.Labels.isSome && labelKeysLoop p.Labels vclusterName labelKeys
      if !belongs then
        workloadSyncSplitLoop vclusterName controlPlaneNamespace controlPlanePod rest system tenant
      else
        let origNS := if p.Labels.isSome then mapIndex p.Labels "vcluster.loft.sh/namespace" else ""
        let system := if origNS = "kube-system" then true else system
        let tenant := if origNS = "kube-system" then tenant else true
        if system && tenant then (true, true)
        else
          workloadSyncSplitLoop vclusterName controlPlaneNamespace controlPlanePod rest
            system tenant

/-- The function `workloadSyncSplit`, returning `(system, tenant)`. -/
def workloadSyncSplit (vclusterName controlPlaneNamespace : String) (pods : List Pod) :
    Bool × Bool :=
  let controlPlanePod := vclusterName ++ "-0"
  workloadSyncSplitLoop vclusterName controlPlaneNamespace controlPlanePod pods false false

/-! ## Discovery -/

/-- The inner loop of discovery over `s.Spec.Ports`: `port` becomes 443 at the first
declared port equal to 443, where the loop breaks. -/
def selectPortLoop : List Int → Int → Int
  | [], port => port
  | p :: rest, port => if p = 443 then 443 else selectPortLoop rest port

/-- The port selection of discovery: 443 by default, otherwise `Ports[0]` overridden by 443
when some declared port is 443. -/
def selectPort (ports : List Int) : Int :=
  let port : Int := 443
  match ports with
  | [] => port
  | p0 :: _ => selectPortLoop ports p0

/-- The loop of `Reconcile` over `svcList.Items`; `discovered` is the slice it appends to. -/
def discoverLoop : List Service → List DiscoveredCluster → List DiscoveredCluster
  | [], discovered => discovered
  | s :: rest, discovered =>
    if s.ClusterIP = ClusterIPNone then discoverLoop rest discovered
    else
      let port := selectPort s.Ports
      discoverLoop rest
        (discovered ++
          [{ Name := s.Name, Namespace := s.Namespace, ServiceName := s.Name,
             ServicePort := port }])

/-- The discovery step of `Reconcile`: the loop started on the empty slice. -/
def discover (items : List Service) : List DiscoveredCluster :=
  discoverLoop items []

/-! ## Coverage evaluation -/

/-- The loop of `Reconcile` over `discovered`; `syncCoverage` is the slice it appends to and
`now` the timestamp taken once before the loop. -/
def syncCoverageLoop (podItems : List Pod) (allSvcItems : List Service)
    (allPodItems : List Pod) (now : Nat) :
    List DiscoveredCluster → List SyncCoverage → List SyncCoverage
  | [], syncCoverage => syncCoverage
  | c :: rest, syncCoverage =>
    let api := true
    let cp := isControlPlaneReady c.Name c.Namespace podItems
    let dns := hasDNSSync c.Name c.Namespace allSvcItems
    let node := hasNodeSync c.Name c.Namespace allSvcItems
    let split := workloadSyncSplit c.Name c.Namespace allPodItems
    let sysWL := split.1
    let tenantWL := split.2
    let wl := sysWL || tenantWL
    let sl := computeScoreLevel api cp dns node sysWL tenantWL
    syncCoverageLoop podItems allSvcItems allPodItems now rest
      (syncCoverage ++
        [{ ClusterName := c.Name, ApiSync := api, ControlPlaneReady := cp, DnsSync := dns,
           NodeSync := node, WorkloadSync := wl, SystemWorkloadSync := sysWL,
           TenantWorkloadSync := tenantWL, Score := sl.1, Level := sl.2,
           LastChecked := now }])

/-! ## The reconcile cycle -/

/-- The type `VClusterHealthSpec`, restricted to the fields `Reconcile` reads. -/
structure VClusterHealthSpec where
  IntervalSeconds : Int := 0
  Namespace : String := ""
  deriving DecidableEq, Repr

/-- The type `VClusterHealthStatus`; `Conditions` is never touched and left out. -/
structure VClusterHealthStatus where
  LastUpdated : Nat := 0
  Clusters : List DiscoveredCluster := []
  SyncCoverage : List SyncCoverage := []
  deriving DecidableEq, Repr

/-- The type `VClusterHealth`: the owning configuration resource. -/
structure VClusterHealth where
  Spec : VClusterHealthSpec := {}
  Status : VClusterHealthStatus := {}
  deriving DecidableEq, Repr

/-- The identity `req.NamespacedName` of the owning resource. -/
structure NamespacedName where
  Namespace : String
  Name : String
  deriving DecidableEq, Repr

/-- An error of a client call; `notFound` is the one `apierrors.IsNotFound` recognises. -/
inductive ClientError where
  | notFound
  | other (msg : String)
  deriving DecidableEq, Repr

/-- The function `client.IgnoreNotFound`: nil for a NotFound error, the error otherwise. -/
def ignoreNotFound : ClientError → Option ClientError
  | .notFound => none
  | .other msg => some (.other msg)

/-- The fields of `client.ListOptions` that `Reconcile` sets; the zero value has no label
selector and the empty namespace, meaning no restriction. -/
structure ListOptions where
  LabelSelector : Option (List (String × String)) := none
  Namespace : String := ""
  deriving DecidableEq, Repr

/-- The type `ctrl.Result`; its zero value asks for no requeue. -/
structure Result where
  Requeue : Bool := false
  RequeueAfter : Int := 0
  deriving DecidableEq, Repr

/-- A call `Reconcile` makes on its client. -/
inductive Call where
  | get (key : NamespacedName)
  | listServices (opts : ListOptions)
  | listPods (opts : ListOptions)
  | statusUpdate (obj : VClusterHealth)
  deriving DecidableEq, Repr

/-- The collaborators of one cycle: what the client answers to each call of `Reconcile`, one
field per call site so that every call can succeed or fail on its own, and the clock. -/
structure Client where
  get : NamespacedName → Except ClientError VClusterHealth
  listVClusterServices : ListOptions → Except ClientError (List Service)
  listAllServices : ListOptions → Except ClientError (List Service)
  listPods : ListOptions → Except ClientError (List Pod)
  listAllPods : ListOptions → Except ClientError (List Pod)
  statusUpdate : VClusterHealth → Option ClientError
  now : Nat

/-- What one cycle does: the returned `(ctrl.Result, error)` and the client calls made, in
order. -/
structure Outcome where
  result : Result
  err : Option ClientError
  calls : List Call
  deriving DecidableEq, Repr

/-- The value `time.Second`, in nanoseconds. -/
def Second : Int := 1000000000

/-- Reduction of an integer to the `int64` range, as Go arithmetic on `time.Duration` does. -/
def wrapInt64 (x : Int) : Int :=
  (x + 2 ^ 63) % 2 ^ 64 - 2 ^ 63

/-- The method `Reconcile`. Logging has no effect on the outcome and is left out. Every
`return` of the Go function is one record below; `calls` lists the client calls made up
to that point. -/
def Reconcile (r : Client) (req : NamespacedName) : Outcome :=
  match r.get req with
  | .error err =>
    { result := {}, err := ignoreNotFound err, calls := [.get req] }
  | .ok vh =>
    let interval := wrapInt64 (vh.Spec.IntervalSeconds * Second)
    let interval := if interval ≤ 0 then 30 * Second else interval
    let targetNS := vh.Spec.Namespace
    let targetNS := if targetNS = "" then "vcluster" else targetNS
    let allNamespaces : Bool := targetNS = "*" || targetNS = "all"
    let svcListOpts : ListOptions := { LabelSelector := some [("app", "vcluster")] }
    let svcListOpts :=
      if !allNamespaces then { svcListOpts with Namespace := targetNS } else svcListOpts
    match r.listVClusterServices svcListOpts with
    | .error _ =>
      { result := { RequeueAfter := interval }, err := none,
        calls := [.get req, .listServices svcListOpts] }
    | .ok svcItems =>
    match r.listAllServices {} with
    | .error _ =>
      { result := { RequeueAfter := interval }, err := none,
        calls := [.get req, .listServices svcListOpts, .listServices {}] }
    | .ok allSvcItems =>
    match r.listPods {} with
    | .error _ =>
      { result := { RequeueAfter := interval }, err := none,
        calls := [.get req, .listServices svcListOpts, .listServices {}, .listPods {}] }
    | .ok podItems =>
    match r.listAllPods {} with
    | .error _ =>
      { result := { RequeueAfter := interval }, err := none,
        calls := [.get req, .listServices svcListOpts, .listServices {}, .listPods {},
          .listPods {}] }
    | .ok allPodItems =>
    let discovered := discover svcItems
    let now := r.now
    let syncCoverage := syncCoverageLoop podItems allSvcItems allPodItems now discovered []
    let vh : VClusterHealth :=
      { vh with Status := { vh.Status with Clusters := discovered, SyncCoverage := syncCoverage } }
    match r.statusUpdate vh with
    | some _ =>
      { result := { RequeueAfter := interval }, err := none,
        calls := [.get req, .listServices svcListOpts, .listServices {}, .listPods {},
          .listPods {}, .statusUpdate vh] }
    | none =>
      { result := { RequeueAfter := interval }, err := none,
        calls := [.get req, .listServices svcListOpts, .listServices {}, .listPods {},
          .listPods {}, .statusUpdate vh] }

/-! ## Parts of the cycle, named -/

/-- The interval computation of `Reconcile`: `time.Duration(IntervalSeconds) * time.Second`,
replaced by thirty seconds when it is not positive. -/
def resolveInterval (intervalSeconds : Int) : Int :=
  let interval := wrapInt64 (intervalSeconds * Second)
  if interval ≤ 0 then 30 * Second else interval

/-- The options of the discovery query of `Reconcile` for the value of `Spec.Namespace`. -/
def discoveryListOptions (specNamespace : String) : ListOptions :=
  let targetNS := specNamespace
  let targetNS := if targetNS = "" then "vcluster" else targetNS
  let allNamespaces : Bool := targetNS = "*" || targetNS = "all"
  let svcListOpts : ListOptions := { LabelSelector := some [("app", "vcluster")] }
  if !allNamespaces then { svcListOpts with Namespace := targetNS } else svcListOpts

/-- The objects passed to `Status().Update` among the calls of a cycle, in order. -/
def statusUpdates : List Call → List VClusterHealth
  | [] => []
  | .statusUpdate obj :: rest => obj :: statusUpdates rest
  | _ :: rest => statusUpdates rest

/-- The status held by the store after the calls of a cycle, `before` being the status it
held when the cycle began: a status update that the client accepts replaces the stored
status by the one of the object passed, every other call leaves the store as it is. -/
def persistedStatus (r : Client) (before : VClusterHealthStatus) :
    List Call → VClusterHealthStatus
  | [] => before
  | .statusUpdate obj :: rest =>
    match r.statusUpdate obj with
    | none => persistedStatus r obj.Status rest
    | some _ => persistedStatus r before rest
  | _ :: rest => persistedStatus r before rest

/-- The coverage entry of one endpoint as the specification words it: the four extractors on
the snapshots, the aggregate, the scorer on the six signals, and the cycle's timestamp. -/
def evaluateEndpoint (podItems : List Pod) (allSvcItems : List Service)
    (allPodItems : List Pod) (now : Nat) (c : DiscoveredCluster) : SyncCoverage :=
  { ClusterName := c.Name,
    ApiSync := true,
    ControlPlaneReady := isControlPlaneReady c.Name c.Namespace podItems,
    DnsSync := hasDNSSync c.Name c.Namespace allSvcItems,
    NodeSync := hasNodeSync c.Name c.Namespace allSvcItems,
    WorkloadSync :=
      (workloadSyncSplit c.Name c.Namespace allPodItems).1 ||
        (workloadSyncSplit c.Name c.Namespace allPodItems).2,
    SystemWorkloadSync := (workloadSyncSplit c.Name c.Namespace allPodItems).1,
    TenantWorkloadSync := (workloadSyncSplit c.Name c.Namespace allPodItems).2,
    Score :=
      (computeScoreLevel true (isControlPlaneReady c.Name c.Namespace podItems)
        (hasDNSSync c.Name c.Namespace allSvcItems) (hasNodeSync c.Name c.Namespace allSvcItems)
        (workloadSyncSplit c.Name c.Namespace allPodItems).1
        (workloadSyncSplit c.Name c.Namespace allPodItems).2).1,
    Level :=
      (computeScoreLevel true (isControlPlaneReady c.Name c.Namespace podItems)
        (hasDNSSync c.Name c.Namespace allSvcItems) (hasNodeSync c.Name c.Namespace allSvcItems)
        (workloadSyncSplit c.Name c.Namespace allPodItems).1
        (workloadSyncSplit c.Name c.Namespace allPodItems).2).2,
    LastChecked := now }

/-! ## A sample cycle -/

/-- The services of the sample host cluster: the API service of the vCluster `vc-prod`, its
headless companion and the DNS mapping service. -/
def sampleServices : List Service :=
  [ { Name := "vc-prod", Namespace := "vcluster", ClusterIP := "10.43.0.7", Ports := [443] },
    { Name := "vc-prod-headless", Namespace := "vcluster", ClusterIP := "None", Ports := [443] },
    { Name := "kube-dns-x-kube-system-x-vc-prod", Namespace := "vcluster",
      ClusterIP := "10.43.0.9", Ports := [53] } ]

/-- The pods of the sample host cluster: the control-plane pod of `vc-prod`, running and
ready, and a synced CoreDNS pod. -/
def samplePods : List Pod :=
  [ { Name := "vc-prod-0", Namespace := "vcluster", Labels := some [("app", "vcluster")],
      Phase := "Running", Conditions := [⟨"Initialized", "True"⟩, ⟨"Ready", "True"⟩] },
    { Name := "coredns-x-kube-system-x-vc-prod", Namespace := "vcluster",
      Labels := some [("vcluster.loft.sh/managed-by", "vc-prod"),
        ("vcluster.loft.sh/namespace", "kube-system")],
      Phase := "Running" } ]

/-- A client over the sample host cluster: the stored resource asks for 60 seconds and holds
the status `stored`; the discovery query answers the first two services; every call
succeeds and the clock reads `now`. -/
def sampleClient (stored : VClusterHealthStatus) (now : Nat) : Client :=
  { get := fun _ => Except.ok { Spec := { IntervalSeconds := 60 }, Status := stored },
    listVClusterServices := fun _ => Except.ok (sampleServices.take 2),
    listAllServices := fun _ => Except.ok sampleServices,
    listPods := fun _ => Except.ok samplePods,
    listAllPods := fun _ => Except.ok samplePods,
    statusUpdate := fun _ => none,
    now := now }

/-- The identity of the owning resource in the sample cycle. -/
def sampleRequest : NamespacedName :=
  { Namespace := "default", Name := "fleet" }

/-- A status stored before the sample cycle: written at time 3, with one stale endpoint. -/
def sampleStored : VClusterHealthStatus :=
  { LastUpdated := 3,
    Clusters := [{ Name := "vc-old", Namespace := "vcluster", ServiceName := "vc-old",
                   ServicePort := 443 }] }

/-! ## Predicates used to state the properties -/

/-- A pod the workload functions exclude: the pod `name ++ "-0"` of the namespace of the
control plane, or a pod labelled `app=vcluster`. -/
def IsControlPlanePod (name controlPlaneNamespace : String) (p : Pod) : Prop :=
  (p.Namespace = controlPlaneNamespace ∧ p.Name = name ++ "-0") ∨
    mapLookup p.Labels "app" = some "vcluster"

instance (name controlPlaneNamespace : String) (p : Pod) :
    Decidable (IsControlPlanePod name controlPlaneNamespace p) := by
  unfold IsControlPlanePod
  infer_instance

/-- At least one of the four ownership labels of the pod has value exactly `name`. -/
def Belongs (name : String) (p : Pod) : Prop :=
  mapLookup p.Labels "vcluster.loft.sh/managed-by" = some name ∨
  mapLookup p.Labels "vcluster.loft.sh/vcluster-name" = some name ∨
  mapLookup p.Labels "vcluster.loft.sh/cluster" = some name ∨
  mapLookup p.Labels "vcluster.loft.sh/owner" = some name

instance (name : String) (p : Pod) : Decidable (Belongs name p) := by
  unfold Belongs
  infer_instance

/-- A counted pod: not excluded, and owned by the vCluster `name` through its labels. -/
def Counted (name controlPlaneNamespace : String) (p : Pod) : Prop :=
  ¬ IsControlPlanePod name controlPlaneNamespace p ∧ Belongs name p

instance (name controlPlaneNamespace : String) (p : Pod) :
    Decidable (Counted name controlPlaneNamespace p) := by
  unfold Counted
  infer_instance

/-- The label `vcluster.loft.sh/namespace` of the pod is present and equal to "kube-system". -/
def OriginIsSystem (p : Pod) : Prop :=
  mapLookup p.Labels "vcluster.loft.sh/namespace" = some "kube-system"

instance (p : Pod) : Decidable (OriginIsSystem p) := by
  unfold OriginIsSystem
  infer_instance

/-- The loop of `workloadSyncSplit` with the early `return true, true` taken out: every pod
is scanned. Used only to state that the short-circuit does not change the result. -/
def workloadSyncSplitFullScanLoop (vclusterName controlPlaneNamespace controlPlanePod : String) :
    List Pod → Bool → Bool → Bool × Bool
  | [], system, tenant => (system, tenant)
  | p :: rest, system, tenant =>
    if p.Namespace = controlPlaneNamespace ∧ p.Name = controlPlanePod then
      workloadSyncSplitFullScanLoop vclusterName controlPlaneNamespace controlPlanePod rest
        system tenant
    else if isAppVCluster p then
      workloadSyncSplitFullScanLoop vclusterName controlPlaneNamespace controlPlanePod rest
        system tenant
    else
      let belongs := p.Labels.isSome && labelKeysLoop p.Labels vclusterName labelKeys
      if !belongs then
        workloadSyncSplitFullScanLoop vclusterName controlPlaneNamespace controlPlanePod rest
          system tenant
      else
        let origNS := if p.Labels.isSome then mapIndex p.Labels "vcluster.loft.sh/namespace" else ""
        let system := if origNS = "kube-system" then true else system
        let tenant := if origNS = "kube-system" then tenant else true
        workloadSyncSplitFullScanLoop vclusterName controlPlaneNamespace controlPlanePod rest
          system tenant

/-- The full-scan variant of `workloadSyncSplit`. -/
def workloadSyncSplitFullScan (vclusterName controlPlaneNamespace : String) (pods : List Pod) :
    Bool × Bool :=
  workloadSyncSplitFullScanLoop vclusterName controlPlaneNamespace (vclusterName ++ "-0") pods
    false false

/-- Substring relation on strings: `sub` occurs in `s` between some `u` and `v`. -/
def IsSubstr (sub s : String) : Prop :=
  ∃ u v : String, s = u ++ sub ++ v

/-- The order of the three levels: "None" below "Partial" below "Full". -/
def levelRank (level : String) : Nat :=
  if level = "None" then 0 else if level = "Partial" then 1 else 2

/-- Passing from the result `lo` of the scorer to the result `hi` raises the score by 16 or
17 and does not lower the level. -/
def RaisesOneStep (lo hi : Int × String) : Prop :=
  (hi.1 - lo.1 = 16 ∨ hi.1 - lo.1 = 17) ∧ levelRank lo.2 ≤ levelRank hi.2

instance (lo hi : Int × String) : Decidable (RaisesOneStep lo hi) := by
  unfold RaisesOneStep
  infer_instance

/-! ## Library functions: properties -/

theorem hasPrefixChars_iff (hay needle : List Char) :
    hasPrefixChars hay needle = true ↔ needle <+: hay := by
  induction hay generalizing needle with
  | nil =>
    cases needle with
    | nil => simp [hasPrefixChars]
    | cons n ns => simp [hasPrefixChars]
  | cons h hs ih =>
    cases needle with
    | nil => simp [hasPrefixChars]
    | cons n ns =>
      by_cases hn : h = n
      · subst hn
        simp [hasPrefixChars, ih, List.cons_prefix_cons]
      · have hn' : ¬ n = h := fun e => hn e.symm
        simp [hasPrefixChars, hn, hn', List.cons_prefix_cons]

theorem containsChars_iff (hay needle : List Char) :
    containsChars hay needle = true ↔ needle <:+: hay := by
  induction hay with
  | nil =>
    rw [containsChars, hasPrefixChars_iff, List.prefix_nil, List.infix_nil]
  | cons h hs ih =>
    rw [containsChars, List.infix_cons_iff, ← ih, ← hasPrefixChars_iff]
    by_cases hp : hasPrefixChars (h :: hs) needle = true
    · simp [hp]
    · simp [hp]

theorem isSubstr_iff_data (sub s : String) : IsSubstr sub s ↔ sub.data <:+: s.data := by
  constructor
  · rintro ⟨u, v, rfl⟩
    exact ⟨u.data, v.data, by simp [String.data_append]⟩
  · rintro ⟨u, v, h⟩
    refine ⟨⟨u⟩, ⟨v⟩, ?_⟩
    apply String.ext
    simp [String.data_append, h]

/-- The function `stringsContains` decides the substring relation. -/
theorem stringsContains_iff (s sub : String) :
    stringsContains s sub = true ↔ IsSubstr sub s := by
  rw [isSubstr_iff_data]
  exact containsChars_iff s.data sub.data

theorem stringsContains_eq_false_iff (s sub : String) :
    stringsContains s sub = false ↔ ¬ IsSubstr sub s := by
  rw [← stringsContains_iff]
  cases stringsContains s sub <;> simp

/-- A substring is no longer than the string it occurs in. -/
theorem IsSubstr.length_le {sub s : String} (h : IsSubstr sub s) : sub.length ≤ s.length := by
  obtain ⟨u, v, rfl⟩ := h
  simp [String.length_append]
  omega

/-! ## Scorer: properties -/

/-- The result of the scorer written as a function of the number of true signals. -/
theorem computeScoreLevel_eq_count (a b c d e f : Bool) :
    computeScoreLevel a b c d e f =
      (Int.tdiv ((trueCount a b c d e f : Int) * 100) 6,
        if trueCount a b c d e f = 0 then "None"
        else if trueCount a b c d e f = 6 then "Full" else "Partial") := by
  cases a <;> cases b <;> cases c <;> cases d <;> cases e <;> cases f <;> decide

/-- C1: for all six signals, the score is `(k * 100) / 6` with truncating division, `k`
the number of true signals, that is the `k`-th entry of `0, 16, 33, 50, 66, 83, 100`; the
level is "None" for `k = 0`, "Full" for `k = 6`, "Partial" otherwise; and two signal vectors
with the same number of true signals get the same result. -/
theorem computeScoreLevel_spec (a b c d e f : Bool) :
    (computeScoreLevel a b c d e f).1 = Int.tdiv ((trueCount a b c d e f : Int) * 100) 6 ∧
    [(0 : Int), 16, 33, 50, 66, 83, 100].get? (trueCount a b c d e f) =
      some (computeScoreLevel a b c d e f).1 ∧
    (computeScoreLevel a b c d e f).2 =
      (if trueCount a b c d e f = 0 then "None"
       else if trueCount a b c d e f = 6 then "Full" else "Partial") ∧
    ∀ a' b' c' d' e' f' : Bool, trueCount a' b' c' d' e' f' = trueCount a b c d e f →
      computeScoreLevel a' b' c' d' e' f' = computeScoreLevel a b c d e f := by
  refine ⟨?_, ?_, ?_, ?_⟩
  · rw [computeScoreLevel_eq_count]
  · cases a <;> cases b <;> cases c <;> cases d <;> cases e <;> cases f <;> decide
  · rw [computeScoreLevel_eq_count]
  · intro a' b' c' d' e' f' h
    rw [computeScoreLevel_eq_count, computeScoreLevel_eq_count, h]

/-- C1 at a concrete input: two different vectors with three true signals agree. -/
theorem computeScoreLevel_spec_witness :
    computeScoreLevel false true false true false true =
      computeScoreLevel true true true false false false :=
  (computeScoreLevel_spec true true true false false false).2.2.2
    false true false true false true (by decide)

/-! ## Control-plane readiness: properties -/

theorem hasReadyCondition_iff (cs : List PodCondition) :
    hasReadyCondition cs = true ↔ ∃ c ∈ cs, c.Type_ = PodReady ∧ c.Status = ConditionTrue := by
  induction cs with
  | nil => simp [hasReadyCondition]
  | cons c cs ih =>
    by_cases hc : c.Type_ = PodReady ∧ c.Status = ConditionTrue
    · simp [hasReadyCondition, hc]
    · have hc' : c.Type_ = PodReady → ¬ c.Status = ConditionTrue := fun h1 h2 => hc ⟨h1, h2⟩
      simp [hasReadyCondition, hc, ih, hc']

/-- A true result of the loop comes from a matching pod that is running and ready. -/
theorem isControlPlaneReadyLoop_true (ns target : String) (pods : List Pod)
    (h : isControlPlaneReadyLoop ns target pods = true) :
    ∃ p ∈ pods, p.Name = target ∧ p.Namespace = ns ∧ p.Phase = PodRunning ∧
      ∃ c ∈ p.Conditions, c.Type_ = PodReady ∧ c.Status = ConditionTrue := by
  induction pods with
  | nil => simp [isControlPlaneReadyLoop] at h
  | cons p rest ih =>
    rw [isControlPlaneReadyLoop] at h
    by_cases h1 : p.Namespace ≠ ns
    · rw [if_pos h1] at h
      obtain ⟨q, hq, hrest⟩ := ih h
      exact ⟨q, List.mem_cons_of_mem _ hq, hrest⟩
    · rw [if_neg h1] at h
      by_cases h2 : p.Name ≠ target
      · rw [if_pos h2] at h
        obtain ⟨q, hq, hrest⟩ := ih h
        exact ⟨q, List.mem_cons_of_mem _ hq, hrest⟩
      · rw [if_neg h2] at h
        by_cases h3 : p.Phase ≠ PodRunning
        · rw [if_pos h3] at h
          exact absurd h (by decide)
        · rw [if_neg h3] at h
          exact ⟨p, List.mem_cons_self _ _, not_not.mp h2, not_not.mp h1, not_not.mp h3,
            (hasReadyCondition_iff _).mp h⟩

/-- The loop is decided by the first pod whose namespace and name match. -/
theorem isControlPlaneReadyLoop_first_match (ns target : String) (pre post : List Pod)
    (p : Pod) (hpre : ∀ q ∈ pre, ¬ (q.Name = target ∧ q.Namespace = ns))
    (hname : p.Name = target) (hns : p.Namespace = ns) :
    isControlPlaneReadyLoop ns target (pre ++ p :: post) =
      (decide (p.Phase = PodRunning) && hasReadyCondition p.Conditions) := by
  induction pre with
  | nil =>
    rw [List.nil_append, isControlPlaneReadyLoop]
    by_cases h3 : p.Phase = PodRunning <;> simp [hname, hns, h3]
  | cons q pre ih =>
    have hq := hpre q (List.mem_cons_self _ _)
    have ih' := ih (fun x hx => hpre x (List.mem_cons_of_mem _ hx))
    rw [List.cons_append, isControlPlaneReadyLoop]
    by_cases h1 : q.Namespace ≠ ns
    · rw [if_pos h1, ih']
    · rw [if_neg h1]
      have h2 : q.Name ≠ target := fun e => hq ⟨e, not_not.mp h1⟩
      rw [if_pos h2, ih']

/-- Without a pod whose namespace and name match, the loop returns false. -/
theorem isControlPlaneReadyLoop_no_match (ns target : String) (pods : List Pod)
    (h : ∀ p ∈ pods, p.Name = target → p.Namespace ≠ ns) :
    isControlPlaneReadyLoop ns target pods = false := by
  cases hb : isControlPlaneReadyLoop ns target pods with
  | false => rfl
  | true =>
    obtain ⟨p, hp, hname, hns, _⟩ := isControlPlaneReadyLoop_true ns target pods hb
    exact absurd hns (h p hp hname)

/-- C2: `isControlPlaneReady` is true only if the list holds a pod named `name ++ "-0"`
in namespace `ns` that is Running and carries a condition of type Ready with status True; it
is false when no pod of that name is in `ns` (a pod of that name in another namespace does
not count), and false when the matching pod, the first one in list order, has no Ready
condition with status True. -/
theorem isControlPlaneReady_spec (name ns : String) (pods : List Pod) :
    (isControlPlaneReady name ns pods = true →
      ∃ p ∈ pods, p.Name = name ++ "-0" ∧ p.Namespace = ns ∧ p.Phase = "Running" ∧
        ∃ c ∈ p.Conditions, c.Type_ = "Ready" ∧ c.Status = "True") ∧
    ((∀ p ∈ pods, p.Name = name ++ "-0" → p.Namespace ≠ ns) →
      isControlPlaneReady name ns pods = false) ∧
    (∀ (pre post : List Pod) (p : Pod), pods = pre ++ p :: post →
      (∀ q ∈ pre, ¬ (q.Name = name ++ "-0" ∧ q.Namespace = ns)) →
      p.Name = name ++ "-0" → p.Namespace = ns →
      (¬ ∃ c ∈ p.Conditions, c.Type_ = "Ready" ∧ c.Status = "True") →
      isControlPlaneReady name ns pods = false) := by
  refine ⟨?_, ?_, ?_⟩
  · intro h
    exact isControlPlaneReadyLoop_true ns (name ++ "-0") pods h
  · intro h
    exact isControlPlaneReadyLoop_no_match ns (name ++ "-0") pods h
  · intro pre post p hpods hpre hname hns hready
    have hr : hasReadyCondition p.Conditions = false := by
      cases hb : hasReadyCondition p.Conditions with
      | false => rfl
      | true => exact absurd ((hasReadyCondition_iff _).mp hb) hready
    rw [hpods]
    show isControlPlaneReadyLoop ns (name ++ "-0") (pre ++ p :: post) = false
    rw [isControlPlaneReadyLoop_first_match ns (name ++ "-0") pre post p hpre hname hns, hr,
      Bool.and_false]

/-- C2 on the pods of the unit tests: a ready pod is found, a pod in another namespace and a
pod whose Ready condition is False give false. -/
theorem isControlPlaneReady_spec_witness :
    (∃ p ∈ [({ Name := "vc-prod-0", Namespace := "vcluster", Phase := "Running",
                Conditions := [⟨"Ready", "True"⟩] } : Pod)],
        p.Name = "vc-prod" ++ "-0" ∧ p.Namespace = "vcluster" ∧ p.Phase = "Running" ∧
          ∃ c ∈ p.Conditions, c.Type_ = "Ready" ∧ c.Status = "True") ∧
    isControlPlaneReady "vc-prod" "vcluster"
      [{ Name := "vc-prod-0", Namespace := "vcluster-1", Phase := "Running",
         Conditions := [⟨"Ready", "True"⟩] }] = false ∧
    isControlPlaneReady "vc-prod" "vcluster"
      [{ Name := "vc-prod-0", Namespace := "vcluster", Phase := "Running",
         Conditions := [⟨"Ready", "False"⟩] }] = false :=
  ⟨(isControlPlaneReady_spec "vc-prod" "vcluster" _).1 (by decide),
   (isControlPlaneReady_spec "vc-prod" "vcluster" _).2.1 (by decide),
   (isControlPlaneReady_spec "vc-prod" "vcluster" _).2.2 [] []
     { Name := "vc-prod-0", Namespace := "vcluster", Phase := "Running",
       Conditions := [⟨"Ready", "False"⟩] } rfl (by decide) (by decide) (by decide)
     (by decide)⟩

/-! ## DNS and node mapping: properties -/

theorem hasDNSSync_iff (name ns : String) (services : List Service) :
    hasDNSSync name ns services = true ↔
      ∃ s ∈ services, s.Namespace = ns ∧ IsSubstr "kube-dns" s.Name ∧ IsSubstr name s.Name := by
  induction services with
  | nil => simp [hasDNSSync]
  | cons s rest ih =>
    rw [hasDNSSync]
    by_cases h1 : s.Namespace ≠ ns
    · rw [if_pos h1, ih]
      simp [h1]
    · rw [if_neg h1]
      have h1' : s.Namespace = ns := not_not.mp h1
      by_cases h2 : (stringsContains s.Name "kube-dns" && stringsContains s.Name name) = true
      · rw [if_pos h2]
        rw [Bool.and_eq_true, stringsContains_iff, stringsContains_iff] at h2
        simp [h1', h2.1, h2.2]
      · rw [if_neg h2, ih]
        rw [Bool.and_eq_true, stringsContains_iff, stringsContains_iff] at h2
        constructor
        · rintro ⟨x, hx, hrest⟩
          exact ⟨x, List.mem_cons_of_mem _ hx, hrest⟩
        · rintro ⟨x, hx, hxns, hk, hn⟩
          rcases List.mem_cons.mp hx with rfl | hx'
          · exact absurd ⟨hk, hn⟩ h2
          · exact ⟨x, hx', hxns, hk, hn⟩

theorem hasDNSSync_filter (name ns : String) (services : List Service) :
    hasDNSSync name ns (services.filter (fun s => decide (s.Namespace = ns))) =
      hasDNSSync name ns services := by
  induction services with
  | nil => rfl
  | cons s rest ih =>
    by_cases h1 : s.Namespace = ns
    · rw [List.filter_cons_of_pos (by simpa using h1), hasDNSSync, hasDNSSync, ih]
    · rw [List.filter_cons_of_neg (by simpa using h1), ih, hasDNSSync.eq_2, if_pos h1]

theorem hasNodeSyncLoop_iff (ns needle : String) (services : List Service) :
    hasNodeSyncLoop ns needle services = true ↔
      ∃ s ∈ services, s.Namespace = ns ∧ IsSubstr needle s.Name := by
  induction services with
  | nil => simp [hasNodeSyncLoop]
  | cons s rest ih =>
    rw [hasNodeSyncLoop]
    by_cases h1 : s.Namespace ≠ ns
    · rw [if_pos h1, ih]
      simp [h1]
    · rw [if_neg h1]
      have h1' : s.Namespace = ns := not_not.mp h1
      by_cases h2 : stringsContains s.Name needle = true
      · rw [if_pos h2]
        rw [stringsContains_iff] at h2
        simp [h1', h2]
      · rw [if_neg h2, ih]
        rw [stringsContains_iff] at h2
        simp [h1', h2]

theorem hasNodeSyncLoop_filter (ns needle : String) (services : List Service) :
    hasNodeSyncLoop ns needle (services.filter (fun s => decide (s.Namespace = ns))) =
      hasNodeSyncLoop ns needle services := by
  induction services with
  | nil => rfl
  | cons s rest ih =>
    by_cases h1 : s.Namespace = ns
    · rw [List.filter_cons_of_pos (by simpa using h1), hasNodeSyncLoop, hasNodeSyncLoop, ih]
    · rw [List.filter_cons_of_neg (by simpa using h1), ih, hasNodeSyncLoop.eq_2, if_pos h1]

theorem bool_eq_false_of_not_true {b : Bool} (h : ¬ b = true) : b = false := by
  cases b with
  | false => rfl
  | true => exact absurd rfl h

/-- C3: `hasDNSSync` is true exactly when some listed service has namespace `ns` and a name
containing both "kube-dns" and `name`; the result is the one obtained from the services
of namespace `ns` alone, so services of other namespaces have no influence and a list without
a service in `ns` gives false. -/
theorem hasDNSSync_spec (name ns : String) (services : List Service) :
    (hasDNSSync name ns services = true ↔
      ∃ s ∈ services, s.Namespace = ns ∧ IsSubstr "kube-dns" s.Name ∧ IsSubstr name s.Name) ∧
    hasDNSSync name ns services =
      hasDNSSync name ns (services.filter (fun s => decide (s.Namespace = ns))) ∧
    ((∀ s ∈ services, s.Namespace ≠ ns) → hasDNSSync name ns services = false) := by
  refine ⟨hasDNSSync_iff name ns services, (hasDNSSync_filter name ns services).symm, ?_⟩
  intro h
  apply bool_eq_false_of_not_true
  rw [hasDNSSync_iff]
  rintro ⟨s, hs, hns, _⟩
  exact h s hs hns

/-- C3 on the service of the unit test placed in another namespace. -/
theorem hasDNSSync_spec_witness :
    hasDNSSync "vc-prod" "vcluster"
      [{ Name := "kube-dns-x-kube-system-x-vc-prod", Namespace := "vcluster-1" }] = false :=
  (hasDNSSync_spec "vc-prod" "vcluster" _).2.2 (by decide)

/-- C4: `hasNodeSync` is true exactly when some listed service has namespace `ns` and a name
containing `name ++ "-node-"`; the result is the one obtained from the services of namespace
`ns` alone, a list without a service in `ns` gives false, and a service named exactly `name`
does not count. -/
theorem hasNodeSync_spec (name ns : String) (services : List Service) :
    (hasNodeSync name ns services = true ↔
      ∃ s ∈ services, s.Namespace = ns ∧ IsSubstr (name ++ "-node-") s.Name) ∧
    hasNodeSync name ns services =
      hasNodeSync name ns (services.filter (fun s => decide (s.Namespace = ns))) ∧
    ((∀ s ∈ services, s.Namespace ≠ ns) → hasNodeSync name ns services = false) ∧
    ((∀ s ∈ services, s.Name = name) → hasNodeSync name ns services = false) := by
  refine ⟨hasNodeSyncLoop_iff ns _ services, (hasNodeSyncLoop_filter ns _ services).symm,
    ?_, ?_⟩
  · intro h
    apply bool_eq_false_of_not_true
    show ¬ hasNodeSyncLoop ns (name ++ "-node-") services = true
    rw [hasNodeSyncLoop_iff]
    rintro ⟨s, hs, hns, _⟩
    exact h s hs hns
  · intro h
    apply bool_eq_false_of_not_true
    show ¬ hasNodeSyncLoop ns (name ++ "-node-") services = true
    rw [hasNodeSyncLoop_iff]
    rintro ⟨s, hs, _, hsub⟩
    have hlen := hsub.length_le
    rw [h s hs, String.length_append] at hlen
    have h6 : ("-node-" : String).length = 6 := by decide
    omega

/-- C4 on the services of the unit tests: the node-mapping service in another namespace and
the service named exactly like the vCluster both give false. -/
theorem hasNodeSync_spec_witness :
    hasNodeSync "vc-prod" "vcluster"
      [{ Name := "vc-prod-node-k3d-k3s-default-server-0", Namespace := "vcluster-1" }] = false ∧
    hasNodeSync "vc-prod" "vcluster" [{ Name := "vc-prod", Namespace := "vcluster" }] = false :=
  ⟨(hasNodeSync_spec "vc-prod" "vcluster" _).2.2.1 (by decide),
   (hasNodeSync_spec "vc-prod" "vcluster" _).2.2.2 (by decide)⟩

/-! ## Workload synchronisation: properties -/

theorem isAppVCluster_iff (p : Pod) :
    isAppVCluster p = true ↔ mapLookup p.Labels "app" = some "vcluster" := by
  unfold isAppVCluster
  cases hl : p.Labels with
  | none => simp [mapLookup]
  | some kvs => simp

theorem belongs_iff (name : String) (p : Pod) :
    (p.Labels.isSome && labelKeysLoop p.Labels name labelKeys) = true ↔ Belongs name p := by
  unfold Belongs
  cases hl : p.Labels with
  | none => simp [mapLookup]
  | some kvs =>
    simp only [Option.isSome_some, Bool.true_and, labelKeys, labelKeysLoop]
    by_cases h1 : mapLookup (some kvs) "vcluster.loft.sh/managed-by" = some name
    · simp [h1]
    · by_cases h2 : mapLookup (some kvs) "vcluster.loft.sh/vcluster-name" = some name
      · simp [h1, h2]
      · by_cases h3 : mapLookup (some kvs) "vcluster.loft.sh/cluster" = some name
        · simp [h1, h2, h3]
        · by_cases h4 : mapLookup (some kvs) "vcluster.loft.sh/owner" = some name
          · simp [h1, h2, h3, h4]
          · simp [h1, h2, h3, h4]

theorem origNS_iff (p : Pod) :
    (if p.Labels.isSome = true then mapIndex p.Labels "vcluster.loft.sh/namespace" else "") =
        "kube-system" ↔ OriginIsSystem p := by
  unfold OriginIsSystem mapIndex
  cases hl : p.Labels with
  | none => simp [mapLookup]
  | some kvs =>
    cases hv : mapLookup (some kvs) "vcluster.loft.sh/namespace" with
    | none => simp
    | some v => simp

theorem isControlPlanePod_iff (name cpNS : String) (p : Pod) :
    IsControlPlanePod name cpNS p ↔
      (p.Namespace = cpNS ∧ p.Name = name ++ "-0") ∨ isAppVCluster p = true := by
  rw [isAppVCluster_iff]
  rfl

/-- One step of either split loop on a pod that is skipped leaves both flags of the
closed form unchanged. -/
theorem any_cons_not_counted (name cpNS : String) (p : Pod) (rest : List Pod)
    (h : ¬ Counted name cpNS p) (q : Pod → Prop) [DecidablePred q] :
    (p :: rest).any (fun x => decide (Counted name cpNS x ∧ q x)) =
      rest.any (fun x => decide (Counted name cpNS x ∧ q x)) := by
  simp [List.any_cons, h]

/-- Closed form of the loop of `workloadSyncSplit`: each flag is its initial value or the
existence of a counted pod of the corresponding origin. -/
theorem workloadSyncSplitLoop_eq (name cpNS : String) (pods : List Pod) (sys ten : Bool) :
    workloadSyncSplitLoop name cpNS (name ++ "-0") pods sys ten =
      (sys || pods.any (fun p => decide (Counted name cpNS p ∧ OriginIsSystem p)),
       ten || pods.any (fun p => decide (Counted name cpNS p ∧ ¬ OriginIsSystem p))) := by
  induction pods generalizing sys ten with
  | nil => simp [workloadSyncSplitLoop]
  | cons p rest ih =>
    rw [workloadSyncSplitLoop]
    by_cases hcp : p.Namespace = cpNS ∧ p.Name = name ++ "-0"
    · have hnc : ¬ Counted name cpNS p := fun hc => hc.1 (Or.inl hcp)
      rw [if_pos hcp, ih, any_cons_not_counted name cpNS p rest hnc,
        any_cons_not_counted name cpNS p rest hnc]
    · rw [if_neg hcp]
      by_cases happ : isAppVCluster p = true
      · have hnc : ¬ Counted name cpNS p :=
          fun hc => hc.1 ((isControlPlanePod_iff name cpNS p).mpr (Or.inr happ))
        rw [if_pos happ, ih, any_cons_not_counted name cpNS p rest hnc,
          any_cons_not_counted name cpNS p rest hnc]
      · rw [if_neg happ]
        have hncp : ¬ IsControlPlanePod name cpNS p := by
          rw [isControlPlanePod_iff]
          rintro (h | h)
          · exact hcp h
          · exact happ h
        by_cases hb : (p.Labels.isSome && labelKeysLoop p.Labels name labelKeys) = true
        · have hc : Counted name cpNS p := ⟨hncp, (belongs_iff name p).mp hb⟩
          by_cases ho : OriginIsSystem p
          · have ho' := (origNS_iff p).mpr ho
            cases ten <;> simp [hb, ho', ih, List.any_cons, hc, ho]
          · have ho' : ¬ _ := fun h => ho ((origNS_iff p).mp h)
            cases sys <;> simp [hb, ho', ih, List.any_cons, hc, ho]
        · have hnc : ¬ Counted name cpNS p := fun hc => hb ((belongs_iff name p).mpr hc.2)
          rw [any_cons_not_counted name cpNS p rest hnc,
            any_cons_not_counted name cpNS p rest hnc]
          simp [hb, ih]

/-- Closed form of the full-scan loop: the same as the one of the short-circuiting loop. -/
theorem workloadSyncSplitFullScanLoop_eq (name cpNS : String) (pods : List Pod)
    (sys ten : Bool) :
    workloadSyncSplitFullScanLoop name cpNS (name ++ "-0") pods sys ten =
      (sys || pods.any (fun p => decide (Counted name cpNS p ∧ OriginIsSystem p)),
       ten || pods.any (fun p => decide (Counted name cpNS p ∧ ¬ OriginIsSystem p))) := by
  induction pods generalizing sys ten with
  | nil => simp [workloadSyncSplitFullScanLoop]
  | cons p rest ih =>
    rw [workloadSyncSplitFullScanLoop]
    by_cases hcp : p.Namespace = cpNS ∧ p.Name = name ++ "-0"
    · have hnc : ¬ Counted name cpNS p := fun hc => hc.1 (Or.inl hcp)
      rw [if_pos hcp, ih, any_cons_not_counted name cpNS p rest hnc,
        any_cons_not_counted name cpNS p rest hnc]
    · rw [if_neg hcp]
      by_cases happ : isAppVCluster p = true
      · have hnc : ¬ Counted name cpNS p :=
          fun hc => hc.1 ((isControlPlanePod_iff name cpNS p).mpr (Or.inr happ))
        rw [if_pos happ, ih, any_cons_not_counted name cpNS p rest hnc,
          any_cons_not_counted name cpNS p rest hnc]
      · rw [if_neg happ]
        have hncp : ¬ IsControlPlanePod name cpNS p := by
          rw [isControlPlanePod_iff]
          rintro (h | h)
          · exact hcp h
          · exact happ h
        by_cases hb : (p.Labels.isSome && labelKeysLoop p.Labels name labelKeys) = true
        · have hc : Counted name cpNS p := ⟨hncp, (belongs_iff name p).mp hb⟩
          by_cases ho : OriginIsSystem p
          · have ho' := (origNS_iff p).mpr ho
            simp [hb, ho', ih, List.any_cons, hc, ho]
          · have ho' : ¬ _ := fun h => ho ((origNS_iff p).mp h)
            simp [hb, ho', ih, List.any_cons, hc, ho]
        · have hnc : ¬ Counted name cpNS p := fun hc => hb ((belongs_iff name p).mpr hc.2)
          rw [any_cons_not_counted name cpNS p rest hnc,
            any_cons_not_counted name cpNS p rest hnc]
          simp [hb, ih]

/-- Characterisation of the loop of `hasWorkloadSync`: some pod that is not excluded is
owned through its labels or lives in a namespace containing the needle. -/
theorem hasWorkloadSyncLoop_iff (name cpNS : String) (pods : List Pod) :
    hasWorkloadSyncLoop name cpNS ("-x-" ++ name) (name ++ "-0") pods = true ↔
      ∃ p ∈ pods, ¬ IsControlPlanePod name cpNS p ∧
        (Belongs name p ∨ IsSubstr ("-x-" ++ name) p.Namespace) := by
  induction pods with
  | nil => simp [hasWorkloadSyncLoop]
  | cons p rest ih =>
    rw [hasWorkloadSyncLoop]
    have hskip : IsControlPlanePod name cpNS p →
        ((∃ q ∈ p :: rest, ¬ IsControlPlanePod name cpNS q ∧
            (Belongs name q ∨ IsSubstr ("-x-" ++ name) q.Namespace)) ↔
          ∃ q ∈ rest, ¬ IsControlPlanePod name cpNS q ∧
            (Belongs name q ∨ IsSubstr ("-x-" ++ name) q.Namespace)) := by
      intro hx
      constructor
      · rintro ⟨q, hq, hq1, hq2⟩
        rcases List.mem_cons.mp hq with rfl | hq'
        · exact absurd hx hq1
        · exact ⟨q, hq', hq1, hq2⟩
      · rintro ⟨q, hq, hrest⟩
        exact ⟨q, List.mem_cons_of_mem _ hq, hrest⟩
    by_cases hcp : p.Namespace = cpNS ∧ p.Name = name ++ "-0"
    · rw [if_pos hcp, ih, hskip (Or.inl hcp)]
    · rw [if_neg hcp]
      by_cases happ : isAppVCluster p = true
      · rw [if_pos happ, ih, hskip ((isControlPlanePod_iff name cpNS p).mpr (Or.inr happ))]
      · rw [if_neg happ]
        have hncp : ¬ IsControlPlanePod name cpNS p := by
          rw [isControlPlanePod_iff]
          rintro (h | h)
          · exact hcp h
          · exact happ h
        by_cases hb : (p.Labels.isSome && labelKeysLoop p.Labels name labelKeys) = true
        · rw [if_pos hb]
          exact iff_of_true rfl
            ⟨p, List.mem_cons_self _ _, hncp, Or.inl ((belongs_iff name p).mp hb)⟩
        · rw [if_neg hb]
          by_cases hn : stringsContains p.Namespace ("-x-" ++ name) = true
          · rw [if_pos hn]
            exact iff_of_true rfl
              ⟨p, List.mem_cons_self _ _, hncp, Or.inr ((stringsContains_iff _ _).mp hn)⟩
          · rw [if_neg hn, ih]
            constructor
            · rintro ⟨q, hq, hrest⟩
              exact ⟨q, List.mem_cons_of_mem _ hq, hrest⟩
            · rintro ⟨q, hq, hq1, hq2⟩
              rcases List.mem_cons.mp hq with rfl | hq'
              · rcases hq2 with h | h
                · exact absurd ((belongs_iff name q).mpr h) hb
                · exact absurd ((stringsContains_iff _ _).mpr h) hn
              · exact ⟨q, hq', hq1, hq2⟩

/-- The two flags of `workloadSyncSplit` in closed form. -/
theorem workloadSyncSplit_eq (name cpNS : String) (pods : List Pod) :
    workloadSyncSplit name cpNS pods =
      (pods.any (fun p => decide (Counted name cpNS p ∧ OriginIsSystem p)),
       pods.any (fun p => decide (Counted name cpNS p ∧ ¬ OriginIsSystem p))) := by
  show workloadSyncSplitLoop name cpNS (name ++ "-0") pods false false = _
  rw [workloadSyncSplitLoop_eq]
  simp

theorem workloadSyncSplit_fst_iff (name cpNS : String) (pods : List Pod) :
    (workloadSyncSplit name cpNS pods).1 = true ↔
      ∃ p ∈ pods, Counted name cpNS p ∧ OriginIsSystem p := by
  rw [workloadSyncSplit_eq]
  simp [List.any_eq_true]

theorem workloadSyncSplit_snd_iff (name cpNS : String) (pods : List Pod) :
    (workloadSyncSplit name cpNS pods).2 = true ↔
      ∃ p ∈ pods, Counted name cpNS p ∧ ¬ OriginIsSystem p := by
  rw [workloadSyncSplit_eq]
  simp [List.any_eq_true]

theorem hasWorkloadSync_iff (name cpNS : String) (pods : List Pod) :
    hasWorkloadSync name cpNS pods = true ↔
      ∃ p ∈ pods, ¬ IsControlPlanePod name cpNS p ∧
        (Belongs name p ∨ IsSubstr ("-x-" ++ name) p.Namespace) :=
  hasWorkloadSyncLoop_iff name cpNS pods

/-- C5: `workloadSyncSplit` returns `(system, tenant)` with `system` true iff some counted
pod has the label `vcluster.loft.sh/namespace` equal to "kube-system" and `tenant` true iff
some counted pod has that label absent or different; a pod is counted iff it is neither the
pod `name ++ "-0"` of the control-plane namespace nor labelled `app=vcluster`, and one of the
four ownership labels has value exactly `name`. Pods of every namespace are scanned, and
the result equals the one of a scan without the short-circuit. -/
theorem workloadSyncSplit_spec (name cpNS : String) (pods : List Pod) :
    ((workloadSyncSplit name cpNS pods).1 = true ↔
      ∃ p ∈ pods,
        (¬ ((p.Namespace = cpNS ∧ p.Name = name ++ "-0") ∨
              mapLookup p.Labels "app" = some "vcluster") ∧
          (mapLookup p.Labels "vcluster.loft.sh/managed-by" = some name ∨
           mapLookup p.Labels "vcluster.loft.sh/vcluster-name" = some name ∨
           mapLookup p.Labels "vcluster.loft.sh/cluster" = some name ∨
           mapLookup p.Labels "vcluster.loft.sh/owner" = some name)) ∧
        mapLookup p.Labels "vcluster.loft.sh/namespace" = some "kube-system") ∧
    ((workloadSyncSplit name cpNS pods).2 = true ↔
      ∃ p ∈ pods,
        (¬ ((p.Namespace = cpNS ∧ p.Name = name ++ "-0") ∨
              mapLookup p.Labels "app" = some "vcluster") ∧
          (mapLookup p.Labels "vcluster.loft.sh/managed-by" = some name ∨
           mapLookup p.Labels "vcluster.loft.sh/vcluster-name" = some name ∨
           mapLookup p.Labels "vcluster.loft.sh/cluster" = some name ∨
           mapLookup p.Labels "vcluster.loft.sh/owner" = some name)) ∧
        mapLookup p.Labels "vcluster.loft.sh/namespace" ≠ some "kube-system") ∧
    workloadSyncSplit name cpNS pods = workloadSyncSplitFullScan name cpNS pods := by
  refine ⟨workloadSyncSplit_fst_iff name cpNS pods, workloadSyncSplit_snd_iff name cpNS pods, ?_⟩
  show workloadSyncSplitLoop name cpNS (name ++ "-0") pods false false =
    workloadSyncSplitFullScanLoop name cpNS (name ++ "-0") pods false false
  rw [workloadSyncSplitLoop_eq, workloadSyncSplitFullScanLoop_eq]

theorem bool_eq_of_iff {a b : Bool} (h : a = true ↔ b = true) : a = b := by
  cases a <;> cases b <;> simp_all

/-- Removing the excluded pods leaves the closed form of the split unchanged. -/
theorem workloadSyncSplit_filter (name cpNS : String) (pods : List Pod) :
    workloadSyncSplit name cpNS
        (pods.filter (fun p => decide (¬ IsControlPlanePod name cpNS p))) =
      workloadSyncSplit name cpNS pods := by
  apply Prod.ext
  · apply bool_eq_of_iff
    rw [workloadSyncSplit_fst_iff, workloadSyncSplit_fst_iff]
    constructor
    · rintro ⟨p, hp, hrest⟩
      exact ⟨p, (List.mem_filter.mp hp).1, hrest⟩
    · rintro ⟨p, hp, hc, ho⟩
      exact ⟨p, List.mem_filter.mpr ⟨hp, by simpa using hc.1⟩, hc, ho⟩
  · apply bool_eq_of_iff
    rw [workloadSyncSplit_snd_iff, workloadSyncSplit_snd_iff]
    constructor
    · rintro ⟨p, hp, hrest⟩
      exact ⟨p, (List.mem_filter.mp hp).1, hrest⟩
    · rintro ⟨p, hp, hc, ho⟩
      exact ⟨p, List.mem_filter.mpr ⟨hp, by simpa using hc.1⟩, hc, ho⟩

/-- Removing the excluded pods leaves the legacy detection unchanged. -/
theorem hasWorkloadSync_filter (name cpNS : String) (pods : List Pod) :
    hasWorkloadSync name cpNS
        (pods.filter (fun p => decide (¬ IsControlPlanePod name cpNS p))) =
      hasWorkloadSync name cpNS pods := by
  apply bool_eq_of_iff
  rw [hasWorkloadSync_iff, hasWorkloadSync_iff]
  constructor
  · rintro ⟨p, hp, hrest⟩
    exact ⟨p, (List.mem_filter.mp hp).1, hrest⟩
  · rintro ⟨p, hp, hc, ho⟩
    exact ⟨p, List.mem_filter.mpr ⟨hp, by simpa using hc⟩, hc, ho⟩

/-- C6: control-plane pods are never counted as workloads. Both `workloadSyncSplit` and
`hasWorkloadSync` return on a pod list what they return on the list without the pods that
are the pod `name ++ "-0"` of the control-plane namespace or are labelled `app=vcluster`,
whatever else those pods carry; a list made only of such pods gives `(false, false)` and
`false`. -/
theorem controlPlanePods_never_counted (name cpNS : String) (pods : List Pod) :
    workloadSyncSplit name cpNS pods =
      workloadSyncSplit name cpNS
        (pods.filter (fun p => decide (¬ ((p.Namespace = cpNS ∧ p.Name = name ++ "-0") ∨
          mapLookup p.Labels "app" = some "vcluster")))) ∧
    hasWorkloadSync name cpNS pods =
      hasWorkloadSync name cpNS
        (pods.filter (fun p => decide (¬ ((p.Namespace = cpNS ∧ p.Name = name ++ "-0") ∨
          mapLookup p.Labels "app" = some "vcluster")))) ∧
    ((∀ p ∈ pods, (p.Namespace = cpNS ∧ p.Name = name ++ "-0") ∨
        mapLookup p.Labels "app" = some "vcluster") →
      workloadSyncSplit name cpNS pods = (false, false) ∧
        hasWorkloadSync name cpNS pods = false) := by
  refine ⟨(workloadSyncSplit_filter name cpNS pods).symm,
    (hasWorkloadSync_filter name cpNS pods).symm, ?_⟩
  intro hall
  refine ⟨?_, ?_⟩
  · apply Prod.ext
    · apply bool_eq_false_of_not_true
      rw [workloadSyncSplit_fst_iff]
      rintro ⟨p, hp, hc, _⟩
      exact hc.1 (hall p hp)
    · apply bool_eq_false_of_not_true
      rw [workloadSyncSplit_snd_iff]
      rintro ⟨p, hp, hc, _⟩
      exact hc.1 (hall p hp)
  · apply bool_eq_false_of_not_true
    rw [hasWorkloadSync_iff]
    rintro ⟨p, hp, hc, _⟩
    exact hc (hall p hp)

/-- C6 on control-plane pods that carry every label a workload would: the StatefulSet pod
with ownership and origin labels, and an `app=vcluster` pod in a namespace matching the
legacy fallback. -/
theorem controlPlanePods_never_counted_witness :
    workloadSyncSplit "vc-prod" "vcluster"
        [{ Name := "vc-prod-0", Namespace := "vcluster",
           Labels := some [("vcluster.loft.sh/managed-by", "vc-prod"),
             ("vcluster.loft.sh/namespace", "kube-system")] },
         { Name := "syncer", Namespace := "team-a-x-vc-prod",
           Labels := some [("app", "vcluster"), ("vcluster.loft.sh/owner", "vc-prod")] }]
      = (false, false) ∧
    hasWorkloadSync "vc-prod" "vcluster"
        [{ Name := "vc-prod-0", Namespace := "vcluster",
           Labels := some [("vcluster.loft.sh/managed-by", "vc-prod"),
             ("vcluster.loft.sh/namespace", "kube-system")] },
         { Name := "syncer", Namespace := "team-a-x-vc-prod",
           Labels := some [("app", "vcluster"), ("vcluster.loft.sh/owner", "vc-prod")] }]
      = false :=
  (controlPlanePods_never_counted "vc-prod" "vcluster" _).2.2 (by decide)

/-- C7: the legacy detection is the split detection plus the namespace fallback:
`hasWorkloadSync` is true iff one of the flags of `workloadSyncSplit` is true or some pod
that is not excluded lives in a namespace whose name contains `"-x-" ++ name`. Hence a true
flag of the split implies `hasWorkloadSync`, and on an unlabelled pod in the namespace
"team-a-x-vc-prod" the legacy detection is true while the split is `(false, false)`. -/
theorem hasWorkloadSync_eq_split_or_fallback (name cpNS : String) (pods : List Pod) :
    (hasWorkloadSync name cpNS pods = true ↔
      ((workloadSyncSplit name cpNS pods).1 = true ∨
        (workloadSyncSplit name cpNS pods).2 = true) ∨
      ∃ p ∈ pods, ¬ ((p.Namespace = cpNS ∧ p.Name = name ++ "-0") ∨
          mapLookup p.Labels "app" = some "vcluster") ∧
        IsSubstr ("-x-" ++ name) p.Namespace) ∧
    (((workloadSyncSplit name cpNS pods).1 = true ∨
        (workloadSyncSplit name cpNS pods).2 = true) →
      hasWorkloadSync name cpNS pods = true) ∧
    (hasWorkloadSync "vc-prod" "vcluster" [{ Name := "random", Namespace := "team-a-x-vc-prod" }]
        = true ∧
      workloadSyncSplit "vc-prod" "vcluster"
        [{ Name := "random", Namespace := "team-a-x-vc-prod" }] = (false, false)) := by
  have key : ((workloadSyncSplit name cpNS pods).1 = true ∨
      (workloadSyncSplit name cpNS pods).2 = true) ↔
      ∃ p ∈ pods, ¬ IsControlPlanePod name cpNS p ∧ Belongs name p := by
    rw [workloadSyncSplit_fst_iff, workloadSyncSplit_snd_iff]
    constructor
    · rintro (⟨p, hp, hc, _⟩ | ⟨p, hp, hc, _⟩)
      · exact ⟨p, hp, hc⟩
      · exact ⟨p, hp, hc⟩
    · rintro ⟨p, hp, hc⟩
      by_cases ho : OriginIsSystem p
      · exact Or.inl ⟨p, hp, hc, ho⟩
      · exact Or.inr ⟨p, hp, hc, ho⟩
  refine ⟨?_, ?_, by decide, by decide⟩
  · rw [hasWorkloadSync_iff, key]
    constructor
    · rintro ⟨p, hp, hncp, hb | hn⟩
      · exact Or.inl ⟨p, hp, hncp, hb⟩
      · exact Or.inr ⟨p, hp, hncp, hn⟩
    · rintro (⟨p, hp, hncp, hb⟩ | ⟨p, hp, hncp, hn⟩)
      · exact ⟨p, hp, hncp, Or.inl hb⟩
      · exact ⟨p, hp, hncp, Or.inr hn⟩
  · intro h
    rw [hasWorkloadSync_iff]
    obtain ⟨p, hp, hncp, hb⟩ := key.mp h
    exact ⟨p, hp, hncp, Or.inl hb⟩

/-- C7 on the pod of the unit test "returns true when a synced workload pod has managed-by
label": the split flags it as tenant, so the legacy detection is true. -/
theorem hasWorkloadSync_eq_split_or_fallback_witness :
    hasWorkloadSync "vc-prod" "vcluster"
      [{ Name := "nginx-x-default-x-vc-prod", Namespace := "vcluster",
         Labels := some [("vcluster.loft.sh/managed-by", "vc-prod"),
           ("vcluster.loft.sh/namespace", "default")] }] = true :=
  (hasWorkloadSync_eq_split_or_fallback "vc-prod" "vcluster" _).2.1 (Or.inr (by decide))

/-! ## Discovery: properties -/

theorem selectPortLoop_eq (ports : List Int) (port : Int) :
    selectPortLoop ports port = if 443 ∈ ports then 443 else port := by
  induction ports with
  | nil => simp [selectPortLoop]
  | cons p rest ih =>
    rw [selectPortLoop]
    by_cases hp : p = 443
    · simp [hp]
    · have hp' : ¬ (443 : Int) = p := fun e => hp e.symm
      rw [if_neg hp, ih]
      simp [List.mem_cons, hp']

/-- The selected port: 443 when declared anywhere, else the first declared port, else 443. -/
theorem selectPort_eq (ports : List Int) :
    selectPort ports =
      if 443 ∈ ports then 443 else
        match ports with
        | [] => 443
        | p0 :: _ => p0 := by
  cases ports with
  | nil => simp [selectPort]
  | cons p0 rest => simp only [selectPort]; rw [selectPortLoop_eq]

/-- The discovery loop appends, in order, one endpoint per listed service whose ClusterIP is
not `ClusterIPNone`. -/
theorem discoverLoop_eq (items : List Service) (discovered : List DiscoveredCluster) :
    discoverLoop items discovered =
      discovered ++
        (items.filter (fun s => decide (s.ClusterIP ≠ ClusterIPNone))).map
          (fun s => { Name := s.Name, Namespace := s.Namespace, ServiceName := s.Name,
                      ServicePort := selectPort s.Ports }) := by
  induction items generalizing discovered with
  | nil => simp [discoverLoop]
  | cons s rest ih =>
    rw [discoverLoop]
    by_cases hs : s.ClusterIP = ClusterIPNone
    · rw [if_pos hs, ih, List.filter_cons_of_neg (by simpa using hs)]
    · rw [if_neg hs, ih, List.filter_cons_of_pos (by simpa using hs)]
      simp

theorem discover_eq (items : List Service) :
    discover items =
      (items.filter (fun s => decide (s.ClusterIP ≠ ClusterIPNone))).map
        (fun s => { Name := s.Name, Namespace := s.Namespace, ServiceName := s.Name,
                    ServicePort := selectPort s.Ports }) := by
  rw [discover, discoverLoop_eq, List.nil_append]

/-- C8: the ports of the emitted endpoints are, in order, those of the kept services under
the rule: 443 if any declared port equals 443, otherwise the first declared port, and 443
when no port is declared. Ports `[8080, 443]` give 443, `[8080]` gives 8080, `[]` gives 443. -/
theorem discovery_port_selection (items : List Service) :
    (discover items).map (fun c => c.ServicePort) =
      (items.filter (fun s => decide (s.ClusterIP ≠ "None"))).map
        (fun s => if 443 ∈ s.Ports then 443 else
          match s.Ports with
          | [] => 443
          | p0 :: _ => p0) ∧
    discover [{ Name := "vc", Namespace := "vcluster", ClusterIP := "10.0.0.1",
                Ports := [8080, 443] }] =
      [{ Name := "vc", Namespace := "vcluster", ServiceName := "vc", ServicePort := 443 }] ∧
    discover [{ Name := "vc", Namespace := "vcluster", ClusterIP := "10.0.0.1",
                Ports := [8080] }] =
      [{ Name := "vc", Namespace := "vcluster", ServiceName := "vc", ServicePort := 8080 }] ∧
    discover [{ Name := "vc", Namespace := "vcluster", ClusterIP := "10.0.0.1",
                Ports := [] }] =
      [{ Name := "vc", Namespace := "vcluster", ServiceName := "vc", ServicePort := 443 }] := by
  refine ⟨?_, by decide, by decide, by decide⟩
  rw [discover_eq, List.map_map]
  apply List.map_congr_left
  intro s _
  exact selectPort_eq s.Ports

/-- C9, as stated, fails: a listed service whose ClusterIP is empty gets an endpoint. -/
theorem discovery_emits_for_empty_clusterIP :
    ({ Name := "vc-ext", Namespace := "vcluster", ClusterIP := "", Ports := [443] } :
        Service).ClusterIP = "" ∧
    discover [{ Name := "vc-ext", Namespace := "vcluster", ClusterIP := "", Ports := [443] }] =
      [{ Name := "vc-ext", Namespace := "vcluster", ServiceName := "vc-ext",
         ServicePort := 443 }] := by
  decide

/-- C9, amended: discovery emits no endpoint for a listed service whose ClusterIP is "None"
and exactly one endpoint, at the service's position, for a listed service with any other
ClusterIP, the empty one included; so the number of endpoints is the number of listed
services whose ClusterIP is not "None". -/
theorem discovery_drops_headless_only (pre post : List Service) (s : Service) :
    discover (pre ++ s :: post) =
      discover pre ++
        (if s.ClusterIP = "None" then []
         else [{ Name := s.Name, Namespace := s.Namespace, ServiceName := s.Name,
                 ServicePort := selectPort s.Ports }]) ++
        discover post ∧
    (discover (pre ++ s :: post)).length =
      (pre ++ s :: post).countP (fun x => decide (x.ClusterIP ≠ "None")) := by
  refine ⟨?_, ?_⟩
  · rw [discover_eq, discover_eq, discover_eq, List.filter_append, List.map_append]
    by_cases hs : s.ClusterIP = "None"
    · rw [if_pos hs, List.filter_cons_of_neg (by simpa [ClusterIPNone] using hs)]
      simp
    · rw [if_neg hs, List.filter_cons_of_pos (by simpa [ClusterIPNone] using hs)]
      simp
  · rw [discover_eq, List.length_map, List.countP_eq_length_filter]
    rfl

/-! ## The reconcile cycle: properties -/

/-- C10: when the owning resource is not found, `Reconcile` returns the empty result (no
requeue, `RequeueAfter = 0`) and a nil error, and the only client call made is the `Get`:
no list call and no status update. -/
theorem reconcile_not_found (r : Client) (req : NamespacedName)
    (h : r.get req = Except.error ClientError.notFound) :
    (Reconcile r req).result = { Requeue := false, RequeueAfter := 0 } ∧
    (Reconcile r req).err = none ∧
    (Reconcile r req).calls = [Call.get req] := by
  simp [Reconcile, h, ignoreNotFound]

/-- C10 on a client whose `Get` answers NotFound while every other call would succeed. -/
theorem reconcile_not_found_witness :
    (Reconcile
      { get := fun _ => Except.error ClientError.notFound,
        listVClusterServices := fun _ => Except.ok [],
        listAllServices := fun _ => Except.ok [],
        listPods := fun _ => Except.ok [],
        listAllPods := fun _ => Except.ok [],
        statusUpdate := fun _ => none,
        now := 0 }
      { Namespace := "default", Name := "fleet" }).calls =
      [Call.get { Namespace := "default", Name := "fleet" }] :=
  (reconcile_not_found _ _ rfl).2.2

/-- The cycle after a successful `Get`, with the interval and the discovery options written
through `resolveInterval` and `discoveryListOptions`. -/
theorem Reconcile_of_loaded (r : Client) (req : NamespacedName) (vh : VClusterHealth)
    (h : r.get req = Except.ok vh) :
    Reconcile r req =
      match r.listVClusterServices (discoveryListOptions vh.Spec.Namespace) with
      | .error _ =>
        { result := { RequeueAfter := resolveInterval vh.Spec.IntervalSeconds }, err := none,
          calls := [.get req, .listServices (discoveryListOptions vh.Spec.Namespace)] }
      | .ok svcItems =>
      match r.listAllServices {} with
      | .error _ =>
        { result := { RequeueAfter := resolveInterval vh.Spec.IntervalSeconds }, err := none,
          calls := [.get req, .listServices (discoveryListOptions vh.Spec.Namespace),
            .listServices {}] }
      | .ok allSvcItems =>
      match r.listPods {} with
      | .error _ =>
        { result := { RequeueAfter := resolveInterval vh.Spec.IntervalSeconds }, err := none,
          calls := [.get req, .listServices (discoveryListOptions vh.Spec.Namespace),
            .listServices {}, .listPods {}] }
      | .ok podItems =>
      match r.listAllPods {} with
      | .error _ =>
        { result := { RequeueAfter := resolveInterval vh.Spec.IntervalSeconds }, err := none,
          calls := [.get req, .listServices (discoveryListOptions vh.Spec.Namespace),
            .listServices {}, .listPods {}, .listPods {}] }
      | .ok allPodItems =>
        { result := { RequeueAfter := resolveInterval vh.Spec.IntervalSeconds }, err := none,
          calls := [.get req, .listServices (discoveryListOptions vh.Spec.Namespace),
            .listServices {}, .listPods {}, .listPods {},
            .statusUpdate
              { vh with Status :=
                  { vh.Status with
                    Clusters := discover svcItems,
                    SyncCoverage :=
                      syncCoverageLoop podItems allSvcItems allPodItems r.now
                        (discover svcItems) [] } }] } := by
  unfold Reconcile
  rw [h]
  show (match r.listVClusterServices (discoveryListOptions vh.Spec.Namespace) with
    | .error _ => _
    | .ok svcItems => _) = _
  cases r.listVClusterServices (discoveryListOptions vh.Spec.Namespace) with
  | error e => rfl
  | ok svcItems =>
    dsimp only
    cases r.listAllServices {} with
    | error e => rfl
    | ok allSvcItems =>
      dsimp only
      cases r.listPods {} with
      | error e => rfl
      | ok podItems =>
        dsimp only
        cases r.listAllPods {} with
        | error e => rfl
        | ok allPodItems =>
          dsimp only
          split <;> rfl

/-- After a successful `Get` every return carries the resolved interval and a nil error. -/
theorem Reconcile_loaded_result (r : Client) (req : NamespacedName) (vh : VClusterHealth)
    (h : r.get req = Except.ok vh) :
    (Reconcile r req).result =
        { Requeue := false, RequeueAfter := resolveInterval vh.Spec.IntervalSeconds } ∧
      (Reconcile r req).err = none := by
  rw [Reconcile_of_loaded r req vh h]
  cases r.listVClusterServices (discoveryListOptions vh.Spec.Namespace) with
  | error e => exact ⟨rfl, rfl⟩
  | ok svcItems =>
    dsimp only
    cases r.listAllServices {} with
    | error e => exact ⟨rfl, rfl⟩
    | ok allSvcItems =>
      dsimp only
      cases r.listPods {} with
      | error e => exact ⟨rfl, rfl⟩
      | ok podItems =>
        dsimp only
        cases r.listAllPods {} with
        | error e => exact ⟨rfl, rfl⟩
        | ok allPodItems => exact ⟨rfl, rfl⟩

/-- The calls of a cycle in which all four list calls succeed: the `Get`, the four lists and
one status update carrying the discovered list and its coverage. -/
theorem Reconcile_calls_of_lists_ok (r : Client) (req : NamespacedName) (vh : VClusterHealth)
    (svcItems allSvcItems : List Service) (podItems allPodItems : List Pod)
    (h : r.get req = Except.ok vh)
    (h1 : r.listVClusterServices (discoveryListOptions vh.Spec.Namespace) = Except.ok svcItems)
    (h2 : r.listAllServices {} = Except.ok allSvcItems)
    (h3 : r.listPods {} = Except.ok podItems)
    (h4 : r.listAllPods {} = Except.ok allPodItems) :
    (Reconcile r req).calls =
      [Call.get req, Call.listServices (discoveryListOptions vh.Spec.Namespace),
        Call.listServices {}, Call.listPods {}, Call.listPods {},
        Call.statusUpdate
          { vh with Status :=
              { vh.Status with
                Clusters := discover svcItems,
                SyncCoverage :=
                  syncCoverageLoop podItems allSvcItems allPodItems r.now
                    (discover svcItems) [] } }] := by
  rw [Reconcile_of_loaded r req vh h, h1]
  dsimp only
  rw [h2]
  dsimp only
  rw [h3]
  dsimp only
  rw [h4]

/-- A cycle in which a list call fails makes no status update. -/
theorem Reconcile_no_update_of_list_error (r : Client) (req : NamespacedName)
    (vh : VClusterHealth) (h : r.get req = Except.ok vh)
    (hfail :
      (∃ e, r.listVClusterServices (discoveryListOptions vh.Spec.Namespace) = Except.error e) ∨
      (∃ e, r.listAllServices {} = Except.error e) ∨
      (∃ e, r.listPods {} = Except.error e) ∨
      (∃ e, r.listAllPods {} = Except.error e)) :
    statusUpdates (Reconcile r req).calls = [] := by
  rw [Reconcile_of_loaded r req vh h]
  cases hs : r.listVClusterServices (discoveryListOptions vh.Spec.Namespace) with
  | error e => rfl
  | ok svcItems =>
    dsimp only
    cases has : r.listAllServices {} with
    | error e => rfl
    | ok allSvcItems =>
      dsimp only
      cases hp : r.listPods {} with
      | error e => rfl
      | ok podItems =>
        dsimp only
        cases hap : r.listAllPods {} with
        | error e => rfl
        | ok allPodItems =>
          exfalso
          rcases hfail with ⟨e, he⟩ | ⟨e, he⟩ | ⟨e, he⟩ | ⟨e, he⟩
          · rw [hs] at he; exact Except.noConfusion he
          · rw [has] at he; exact Except.noConfusion he
          · rw [hp] at he; exact Except.noConfusion he
          · rw [hap] at he; exact Except.noConfusion he

/-- C11: whenever the configuration resource is loaded, `Reconcile` returns `RequeueAfter`
equal to the resolved interval and a nil error, whatever the four list calls and the status
update answer. -/
theorem reconcile_requeues_after_interval (r : Client) (req : NamespacedName)
    (vh : VClusterHealth) (h : r.get req = Except.ok vh) :
    (Reconcile r req).result.RequeueAfter = resolveInterval vh.Spec.IntervalSeconds ∧
    (Reconcile r req).result.Requeue = false ∧
    (Reconcile r req).err = none := by
  obtain ⟨hres, herr⟩ := Reconcile_loaded_result r req vh h
  rw [hres]
  exact ⟨rfl, rfl, herr⟩

/-- C11 on a cycle whose pod listing fails and whose status update would fail too, with an
interval of 45 seconds. -/
theorem reconcile_requeues_after_interval_witness :
    (Reconcile
      { get := fun _ => Except.ok { Spec := { IntervalSeconds := 45 } },
        listVClusterServices := fun _ => Except.ok [],
        listAllServices := fun _ => Except.ok [],
        listPods := fun _ => Except.error (ClientError.other "timeout"),
        listAllPods := fun _ => Except.ok [],
        statusUpdate := fun _ => some (ClientError.other "conflict"),
        now := 7 }
      { Namespace := "default", Name := "fleet" }).result.RequeueAfter = resolveInterval 45 :=
  (reconcile_requeues_after_interval _ _ { Spec := { IntervalSeconds := 45 } } rfl).1

/-- C12, as stated, fails: a failure to load the configuration that is not NotFound is
returned by `Reconcile` as its error. -/
theorem reconcile_propagates_get_error :
    (Reconcile
      { get := fun _ => Except.error (ClientError.other "connection refused"),
        listVClusterServices := fun _ => Except.ok [],
        listAllServices := fun _ => Except.ok [],
        listPods := fun _ => Except.ok [],
        listAllPods := fun _ => Except.ok [],
        statusUpdate := fun _ => none,
        now := 0 }
      { Namespace := "default", Name := "fleet" }).err =
      some (ClientError.other "connection refused") := by
  decide

/-- C12, amended: the error `Reconcile` returns is nil for every outcome of the list calls
and of the status update and for a NotFound on loading the configuration; a failure to load
the configuration that is not NotFound is returned as the error. -/
theorem reconcile_error_only_from_get (r : Client) (req : NamespacedName) :
    (Reconcile r req).err =
      match r.get req with
      | .ok _ => none
      | .error .notFound => none
      | .error (.other msg) => some (.other msg) := by
  cases h : r.get req with
  | ok vh => exact (Reconcile_loaded_result r req vh h).2
  | error e =>
    unfold Reconcile
    rw [h]
    cases e with
    | notFound => rfl
    | other msg => rfl

theorem persistedStatus_of_no_update (r : Client) (before : VClusterHealthStatus)
    (calls : List Call) (h : statusUpdates calls = []) :
    persistedStatus r before calls = before := by
  induction calls with
  | nil => rfl
  | cons c rest ih =>
    cases c with
    | get key => exact ih h
    | listServices opts => exact ih h
    | listPods opts => exact ih h
    | statusUpdate obj => simp [statusUpdates] at h

/-- C13: if any of the four list calls fails, `Reconcile` issues no status update, so the
status held by the store after the cycle is exactly the one it held before. -/
theorem reconcile_list_failure_keeps_status (r : Client) (req : NamespacedName)
    (vh : VClusterHealth) (before : VClusterHealthStatus) (h : r.get req = Except.ok vh)
    (hfail :
      (∃ e, r.listVClusterServices (discoveryListOptions vh.Spec.Namespace) = Except.error e) ∨
      (∃ e, r.listAllServices {} = Except.error e) ∨
      (∃ e, r.listPods {} = Except.error e) ∨
      (∃ e, r.listAllPods {} = Except.error e)) :
    (∀ obj, Call.statusUpdate obj ∉ (Reconcile r req).calls) ∧
    persistedStatus r before (Reconcile r req).calls = before := by
  have hnone := Reconcile_no_update_of_list_error r req vh h hfail
  refine ⟨?_, persistedStatus_of_no_update r before _ hnone⟩
  intro obj hobj
  have hmem : ∀ calls : List Call, Call.statusUpdate obj ∈ calls → obj ∈ statusUpdates calls := by
    intro calls
    induction calls with
    | nil => intro hm; simp at hm
    | cons c rest ih =>
      intro hm
      rcases List.mem_cons.mp hm with heq | hrest
      · subst heq
        simp [statusUpdates]
      · cases c with
        | get key => exact ih hrest
        | listServices opts => exact ih hrest
        | listPods opts => exact ih hrest
        | statusUpdate o => simp [statusUpdates, ih hrest]
  have := hmem _ hobj
  rw [hnone] at this
  simp at this

/-- C13 on a cycle whose last list call fails: the stored status, with one cluster and a
timestamp, is left as it was. -/
theorem reconcile_list_failure_keeps_status_witness :
    persistedStatus
      { get := fun _ => Except.ok {},
        listVClusterServices := fun _ =>
          Except.ok [{ Name := "vc-prod", Namespace := "vcluster", ClusterIP := "10.0.0.1" }],
        listAllServices := fun _ => Except.ok [],
        listPods := fun _ => Except.ok [],
        listAllPods := fun _ => Except.error (ClientError.other "timeout"),
        statusUpdate := fun _ => none,
        now := 9 }
      { LastUpdated := 3,
        Clusters := [{ Name := "old", Namespace := "vcluster", ServiceName := "old",
                       ServicePort := 443 }] }
      (Reconcile
        { get := fun _ => Except.ok {},
          listVClusterServices := fun _ =>
            Except.ok [{ Name := "vc-prod", Namespace := "vcluster", ClusterIP := "10.0.0.1" }],
          listAllServices := fun _ => Except.ok [],
          listPods := fun _ => Except.ok [],
          listAllPods := fun _ => Except.error (ClientError.other "timeout"),
          statusUpdate := fun _ => none,
          now := 9 }
        { Namespace := "default", Name := "fleet" }).calls =
      { LastUpdated := 3,
        Clusters := [{ Name := "old", Namespace := "vcluster", ServiceName := "old",
                       ServicePort := 443 }] } :=
  (reconcile_list_failure_keeps_status _ _ {} _ rfl
    (Or.inr (Or.inr (Or.inr ⟨ClientError.other "timeout", rfl⟩)))).2

/-! ## Interval resolution: properties -/

/-- For a 32-bit `IntervalSeconds` the product with `time.Second` stays inside `int64`. -/
theorem wrapInt64_seconds (x : Int) (hlo : -2 ^ 31 ≤ x) (hhi : x < 2 ^ 31) :
    wrapInt64 (x * Second) = x * Second := by
  unfold wrapInt64 Second
  norm_num at hlo hhi ⊢
  omega

/-- C14: for every 32-bit signed `IntervalSeconds` the conversion to nanoseconds does not
leave the 64-bit range, the resolved interval is 30 seconds when `IntervalSeconds <= 0` and
exactly `IntervalSeconds` seconds otherwise, and a positive `IntervalSeconds` resolves to a
positive interval. -/
theorem resolveInterval_spec (x : Int) (hlo : -2 ^ 31 ≤ x) (hhi : x < 2 ^ 31) :
    wrapInt64 (x * Second) = x * Second ∧
    -2 ^ 63 ≤ x * Second ∧ x * Second < 2 ^ 63 ∧
    resolveInterval x = (if x ≤ 0 then 30 * 1000000000 else x * 1000000000) ∧
    (0 < x → 0 < resolveInterval x) := by
  have hw := wrapInt64_seconds x hlo hhi
  have hres : resolveInterval x = (if x ≤ 0 then 30 * 1000000000 else x * 1000000000) := by
    unfold resolveInterval
    simp only [hw]
    unfold Second
    by_cases hx : x ≤ 0
    · rw [if_pos hx, if_pos (by omega)]
    · rw [if_neg hx, if_neg (by omega)]
  refine ⟨hw, ?_, ?_, hres, ?_⟩
  · unfold Second
    norm_num at hlo hhi ⊢
    omega
  · unfold Second
    norm_num at hlo hhi ⊢
    omega
  · intro hx
    rw [hres, if_neg (by omega)]
    omega

/-- C14 at the largest 32-bit value and at a negative one. -/
theorem resolveInterval_spec_witness :
    resolveInterval 2147483647 = 2147483647 * 1000000000 ∧
    resolveInterval (-5) = 30 * 1000000000 :=
  ⟨by
      have h := (resolveInterval_spec 2147483647 (by norm_num) (by norm_num)).2.2.2.1
      rw [h]
      decide,
   by
      have h := (resolveInterval_spec (-5) (by norm_num) (by norm_num)).2.2.2.1
      rw [h]
      decide⟩

/-! ## Coverage evaluation: properties -/

/-- The coverage loop appends, in order, the evaluation of every endpoint. -/
theorem syncCoverageLoop_eq (podItems : List Pod) (allSvcItems : List Service)
    (allPodItems : List Pod) (now : Nat) (discovered : List DiscoveredCluster)
    (syncCoverage : List SyncCoverage) :
    syncCoverageLoop podItems allSvcItems allPodItems now discovered syncCoverage =
      syncCoverage ++ discovered.map (evaluateEndpoint podItems allSvcItems allPodItems now) := by
  induction discovered generalizing syncCoverage with
  | nil => simp [syncCoverageLoop]
  | cons c rest ih =>
    rw [syncCoverageLoop, ih, List.map_cons, List.append_assoc]
    rfl

/-- With the API signal true the score is at least 16 and the level is not "None". -/
theorem computeScoreLevel_api (cp dns node sys ten : Bool) :
    16 ≤ (computeScoreLevel true cp dns node sys ten).1 ∧
      (computeScoreLevel true cp dns node sys ten).2 ≠ "None" := by
  cases cp <;> cases dns <;> cases node <;> cases sys <;> cases ten <;> decide

/-- The objects of the status updates of any cycle: none, or the single object that carries
the discovered list and its evaluation. -/
theorem statusUpdates_Reconcile (r : Client) (req : NamespacedName) :
    statusUpdates (Reconcile r req).calls = [] ∨
    ∃ (vh : VClusterHealth) (svcItems allSvcItems : List Service)
      (podItems allPodItems : List Pod),
      r.get req = Except.ok vh ∧
      r.listVClusterServices (discoveryListOptions vh.Spec.Namespace) = Except.ok svcItems ∧
      r.listAllServices {} = Except.ok allSvcItems ∧
      r.listPods {} = Except.ok podItems ∧
      r.listAllPods {} = Except.ok allPodItems ∧
      statusUpdates (Reconcile r req).calls =
        [{ vh with Status :=
            { vh.Status with
              Clusters := discover svcItems,
              SyncCoverage :=
                (discover svcItems).map
                  (evaluateEndpoint podItems allSvcItems allPodItems r.now) } }] := by
  cases h : r.get req with
  | error e =>
    left
    unfold Reconcile
    rw [h]
    rfl
  | ok vh =>
    cases h1 : r.listVClusterServices (discoveryListOptions vh.Spec.Namespace) with
    | error e =>
      exact Or.inl (Reconcile_no_update_of_list_error r req vh h (Or.inl ⟨e, h1⟩))
    | ok svcItems =>
      cases h2 : r.listAllServices {} with
      | error e =>
        exact Or.inl (Reconcile_no_update_of_list_error r req vh h (Or.inr (Or.inl ⟨e, h2⟩)))
      | ok allSvcItems =>
        cases h3 : r.listPods {} with
        | error e =>
          exact Or.inl (Reconcile_no_update_of_list_error r req vh h
            (Or.inr (Or.inr (Or.inl ⟨e, h3⟩))))
        | ok podItems =>
          cases h4 : r.listAllPods {} with
          | error e =>
            exact Or.inl (Reconcile_no_update_of_list_error r req vh h
              (Or.inr (Or.inr (Or.inr ⟨e, h4⟩))))
          | ok allPodItems =>
            right
            refine ⟨vh, svcItems, allSvcItems, podItems, allPodItems, rfl, h1, rfl, rfl, rfl, ?_⟩
            rw [Reconcile_calls_of_lists_ok r req vh svcItems allSvcItems podItems allPodItems
              h h1 h2 h3 h4, syncCoverageLoop_eq, List.nil_append]
            rfl

/-- C15: every coverage entry that `Reconcile` writes has `ApiSync = true`, hence a score of
at least 16 and a level different from "None". -/
theorem written_coverage_has_apiSync (r : Client) (req : NamespacedName)
    (obj : VClusterHealth) (hobj : Call.statusUpdate obj ∈ (Reconcile r req).calls)
    (e : SyncCoverage) (he : e ∈ obj.Status.SyncCoverage) :
    e.ApiSync = true ∧ 16 ≤ e.Score ∧ e.Level ≠ "None" := by
  have hmem : obj ∈ statusUpdates (Reconcile r req).calls := by
    generalize (Reconcile r req).calls = calls at hobj
    induction calls with
    | nil => simp at hobj
    | cons c rest ih =>
      rcases List.mem_cons.mp hobj with heq | hrest
      · subst heq
        simp [statusUpdates]
      · cases c with
        | get key => exact ih hrest
        | listServices opts => exact ih hrest
        | listPods opts => exact ih hrest
        | statusUpdate o => simp [statusUpdates, ih hrest]
  rcases statusUpdates_Reconcile r req with hnone | ⟨vh, svc, allSvc, pods, allPods, _, _, _, _, _, hcalls⟩
  · rw [hnone] at hmem
    simp at hmem
  · rw [hcalls, List.mem_singleton] at hmem
    subst hmem
    obtain ⟨c, _, rfl⟩ := List.mem_map.mp he
    exact ⟨rfl, (computeScoreLevel_api _ _ _ _ _).1, (computeScoreLevel_api _ _ _ _ _).2⟩

/-- C15 on the sample cycle: the entry written for `vc-prod`. -/
theorem written_coverage_has_apiSync_witness :
    ∃ e ∈ [({ ClusterName := "vc-prod", ControlPlaneReady := true, ApiSync := true,
              DnsSync := true, NodeSync := false, WorkloadSync := true,
              SystemWorkloadSync := true, TenantWorkloadSync := false, Score := 66,
              Level := "Partial", LastChecked := 5 } : SyncCoverage)],
      e.ApiSync = true ∧ 16 ≤ e.Score ∧ e.Level ≠ "None" :=
  ⟨_, List.mem_singleton.mpr rfl,
    written_coverage_has_apiSync (sampleClient sampleStored 5) sampleRequest
      { Spec := { IntervalSeconds := 60 },
        Status :=
          { LastUpdated := 3,
            Clusters := [{ Name := "vc-prod", Namespace := "vcluster", ServiceName := "vc-prod",
                           ServicePort := 443 }],
            SyncCoverage :=
              [{ ClusterName := "vc-prod", ControlPlaneReady := true, ApiSync := true,
                 DnsSync := true, NodeSync := false, WorkloadSync := true,
                 SystemWorkloadSync := true, TenantWorkloadSync := false, Score := 66,
                 Level := "Partial", LastChecked := 5 }] } }
      (by decide) _ (List.mem_singleton.mpr rfl)⟩

/-- C16: two runs of `Reconcile` on the same configuration spec and the same service and pod
snapshots (the list calls of both runs answer alike) write identical `Clusters` lists and `SyncCoverage` lists that differ at most in
`LastChecked`, whatever status each run found stored and whatever the two clocks read: the
written lists are those computed from the snapshots alone. -/
theorem reconcile_idempotent (r1 r2 : Client) (req1 req2 : NamespacedName)
    (vh1 vh2 : VClusterHealth) (svcItems allSvcItems : List Service)
    (podItems allPodItems : List Pod)
    (hg1 : r1.get req1 = Except.ok vh1) (hg2 : r2.get req2 = Except.ok vh2)
    (hspec : vh1.Spec = vh2.Spec)
    (hsame : r1.listVClusterServices = r2.listVClusterServices ∧
      r1.listAllServices = r2.listAllServices ∧
      r1.listPods = r2.listPods ∧ r1.listAllPods = r2.listAllPods)
    (hs1 : r1.listVClusterServices (discoveryListOptions vh1.Spec.Namespace) =
      Except.ok svcItems)
    (ha1 : r1.listAllServices {} = Except.ok allSvcItems)
    (hp1 : r1.listPods {} = Except.ok podItems)
    (hq1 : r1.listAllPods {} = Except.ok allPodItems) :
    ∃ obj1 obj2 : VClusterHealth,
      statusUpdates (Reconcile r1 req1).calls = [obj1] ∧
      statusUpdates (Reconcile r2 req2).calls = [obj2] ∧
      obj1.Status.Clusters = obj2.Status.Clusters ∧
      obj1.Status.SyncCoverage.map (fun e => { e with LastChecked := 0 }) =
        obj2.Status.SyncCoverage.map (fun e => { e with LastChecked := 0 }) ∧
      (r1.now = r2.now → obj1.Status.SyncCoverage = obj2.Status.SyncCoverage) ∧
      obj1.Status.Clusters = discover svcItems ∧
      obj1.Status.SyncCoverage =
        (discover svcItems).map (evaluateEndpoint podItems allSvcItems allPodItems r1.now) := by
  have hc1 := Reconcile_calls_of_lists_ok r1 req1 vh1 svcItems allSvcItems podItems allPodItems
    hg1 hs1 ha1 hp1 hq1
  obtain ⟨e1, e2, e3, e4⟩ := hsame
  have hc2 := Reconcile_calls_of_lists_ok r2 req2 vh2 svcItems allSvcItems podItems allPodItems
    hg2 (by rw [← e1, ← hspec]; exact hs1) (by rw [← e2]; exact ha1)
    (by rw [← e3]; exact hp1) (by rw [← e4]; exact hq1)
  refine ⟨{ vh1 with Status :=
              { vh1.Status with
                Clusters := discover svcItems,
                SyncCoverage :=
                  (discover svcItems).map
                    (evaluateEndpoint podItems allSvcItems allPodItems r1.now) } },
          { vh2 with Status :=
              { vh2.Status with
                Clusters := discover svcItems,
                SyncCoverage :=
                  (discover svcItems).map
                    (evaluateEndpoint podItems allSvcItems allPodItems r2.now) } },
          ?_, ?_, rfl, ?_, ?_, rfl, rfl⟩
  · rw [hc1, syncCoverageLoop_eq, List.nil_append]
    rfl
  · rw [hc2, syncCoverageLoop_eq, List.nil_append]
    rfl
  · simp only [List.map_map]
    apply List.map_congr_left
    intro c _
    rfl
  · intro hnow
    simp only [hnow]

/-- C16 on two sample cycles that differ in the stored status and in the clock. -/
theorem reconcile_idempotent_witness :
    ∃ obj1 obj2 : VClusterHealth,
      statusUpdates (Reconcile (sampleClient sampleStored 5) sampleRequest).calls = [obj1] ∧
      statusUpdates (Reconcile (sampleClient {} 8) sampleRequest).calls = [obj2] ∧
      obj1.Status.Clusters = obj2.Status.Clusters ∧
      obj1.Status.SyncCoverage.map (fun e => { e with LastChecked := 0 }) =
        obj2.Status.SyncCoverage.map (fun e => { e with LastChecked := 0 }) := by
  obtain ⟨obj1, obj2, h1, h2, h3, h4, _⟩ :=
    reconcile_idempotent (sampleClient sampleStored 5) (sampleClient {} 8) sampleRequest
      sampleRequest { Spec := { IntervalSeconds := 60 }, Status := sampleStored }
      { Spec := { IntervalSeconds := 60 }, Status := {} }
      (sampleServices.take 2) sampleServices samplePods samplePods
      rfl rfl rfl ⟨rfl, rfl, rfl, rfl⟩ rfl rfl rfl rfl
  exact ⟨obj1, obj2, h1, h2, h3, h4⟩

/-- C17 fails on the code: on the sample cycle, evaluated at time 5 with a status stored at
time 3, every call succeeds, and the status written and held by the store afterwards has
the new `Clusters` list but still `LastUpdated = 3`. -/
theorem reconcile_leaves_lastUpdated :
    (sampleClient sampleStored 5).now = 5 ∧
    (statusUpdates (Reconcile (sampleClient sampleStored 5) sampleRequest).calls).map
        (fun obj => obj.Status.LastUpdated) = [3] ∧
    (persistedStatus (sampleClient sampleStored 5) sampleStored
        (Reconcile (sampleClient sampleStored 5) sampleRequest).calls).LastUpdated = 3 ∧
    (persistedStatus (sampleClient sampleStored 5) sampleStored
        (Reconcile (sampleClient sampleStored 5) sampleRequest).calls).Clusters =
      [{ Name := "vc-prod", Namespace := "vcluster", ServiceName := "vc-prod",
         ServicePort := 443 }] := by
  decide

/-! ## First match, order of discovery, shape of the written coverage -/

/-- C18: `isControlPlaneReady` is decided by the first pod, in list order, whose namespace
and name are `ns` and `name ++ "-0"`: the result is true iff that pod is Running and has,
anywhere among its conditions, one of type Ready with status True; the pods after it,
matching or not, ready or not, never change the result. -/
theorem isControlPlaneReady_first_match (name ns : String) (pre post : List Pod) (p : Pod)
    (hpre : ∀ q ∈ pre, ¬ (q.Name = name ++ "-0" ∧ q.Namespace = ns))
    (hname : p.Name = name ++ "-0") (hns : p.Namespace = ns) :
    (isControlPlaneReady name ns (pre ++ p :: post) = true ↔
      p.Phase = "Running" ∧ ∃ c ∈ p.Conditions, c.Type_ = "Ready" ∧ c.Status = "True") ∧
    isControlPlaneReady name ns (pre ++ p :: post) =
      isControlPlaneReady name ns (pre ++ [p]) := by
  have hmain : ∀ tail : List Pod,
      isControlPlaneReady name ns (pre ++ p :: tail) =
        (decide (p.Phase = PodRunning) && hasReadyCondition p.Conditions) :=
    fun tail => isControlPlaneReadyLoop_first_match ns (name ++ "-0") pre tail p hpre hname hns
  refine ⟨?_, ?_⟩
  · rw [hmain post, Bool.and_eq_true, decide_eq_true_iff, hasReadyCondition_iff]
    rfl
  · rw [hmain post, hmain []]

/-- C18 on duplicates: the first `vc-prod-0` is Pending, a later one is Running and Ready,
and the result is false. -/
theorem isControlPlaneReady_first_match_witness :
    isControlPlaneReady "vc-prod" "vcluster"
      ([{ Name := "other", Namespace := "vcluster" }] ++
        { Name := "vc-prod-0", Namespace := "vcluster", Phase := "Pending",
          Conditions := [⟨"Ready", "True"⟩] } ::
        [{ Name := "vc-prod-0", Namespace := "vcluster", Phase := "Running",
           Conditions := [⟨"Ready", "True"⟩] }]) = false :=
  Bool.eq_false_iff.mpr
    (fun h =>
      absurd
        (((isControlPlaneReady_first_match "vc-prod" "vcluster"
            [{ Name := "other", Namespace := "vcluster" }]
            [{ Name := "vc-prod-0", Namespace := "vcluster", Phase := "Running",
               Conditions := [⟨"Ready", "True"⟩] }]
            { Name := "vc-prod-0", Namespace := "vcluster", Phase := "Pending",
              Conditions := [⟨"Ready", "True"⟩] }
            (by decide) (by decide) (by decide)).1.mp h).1)
        (by decide))

/-- C19: the discovered list is the order-preserving image of the kept services, those whose
ClusterIP is not "None": entry by entry it carries the name of the service as `Name` and as
`ServiceName` and the namespace of the service, its length is the number of kept services,
and a service listed twice is discovered twice. -/
theorem discovery_preserves_order (items : List Service) :
    (discover items).map (fun c => (c.Name, c.Namespace, c.ServiceName)) =
      (items.filter (fun s => decide (s.ClusterIP ≠ "None"))).map
        (fun s => (s.Name, s.Namespace, s.Name)) ∧
    (discover items).length =
      (items.filter (fun s => decide (s.ClusterIP ≠ "None"))).length ∧
    List.Sublist ((discover items).map (fun c => (c.Name, c.Namespace)))
      (items.map (fun s => (s.Name, s.Namespace))) ∧
    discover (items ++ items) = discover items ++ discover items := by
  refine ⟨?_, ?_, ?_, ?_⟩
  · rw [discover_eq, List.map_map]
    rfl
  · rw [discover_eq, List.length_map]
    rfl
  · rw [discover_eq, List.map_map]
    exact (List.filter_sublist items).map _
  · rw [discover_eq, discover_eq, List.filter_append, List.map_append]

/-- C20: on a cycle whose `Get` and four list calls succeed, the single status update
carries `Clusters = discover svcItems` and a `SyncCoverage` list of the same length and
order whose i-th entry is the evaluation of the i-th endpoint: the name of the endpoint,
the four extractors on the listed pods and services, `WorkloadSync` as the disjunction of
the two split flags, score and level from `computeScoreLevel` on the entry's own six
signals, and the one timestamp of the cycle. -/
theorem written_coverage_shape (r : Client) (req : NamespacedName) (vh : VClusterHealth)
    (svcItems allSvcItems : List Service) (podItems allPodItems : List Pod)
    (h : r.get req = Except.ok vh)
    (h1 : r.listVClusterServices (discoveryListOptions vh.Spec.Namespace) = Except.ok svcItems)
    (h2 : r.listAllServices {} = Except.ok allSvcItems)
    (h3 : r.listPods {} = Except.ok podItems)
    (h4 : r.listAllPods {} = Except.ok allPodItems) :
    ∃ obj : VClusterHealth,
      statusUpdates (Reconcile r req).calls = [obj] ∧
      obj.Status.Clusters = discover svcItems ∧
      obj.Status.SyncCoverage.length = obj.Status.Clusters.length ∧
      obj.Status.SyncCoverage =
        obj.Status.Clusters.map (fun c =>
          { ClusterName := c.Name,
            ApiSync := true,
            ControlPlaneReady := isControlPlaneReady c.Name c.Namespace podItems,
            DnsSync := hasDNSSync c.Name c.Namespace allSvcItems,
            NodeSync := hasNodeSync c.Name c.Namespace allSvcItems,
            WorkloadSync :=
              (workloadSyncSplit c.Name c.Namespace allPodItems).1 ||
                (workloadSyncSplit c.Name c.Namespace allPodItems).2,
            SystemWorkloadSync := (workloadSyncSplit c.Name c.Namespace allPodItems).1,
            TenantWorkloadSync := (workloadSyncSplit c.Name c.Namespace allPodItems).2,
            Score :=
              (computeScoreLevel true (isControlPlaneReady c.Name c.Namespace podItems)
                (hasDNSSync c.Name c.Namespace allSvcItems)
                (hasNodeSync c.Name c.Namespace allSvcItems)
                (workloadSyncSplit c.Name c.Namespace allPodItems).1
                (workloadSyncSplit c.Name c.Namespace allPodItems).2).1,
            Level :=
              (computeScoreLevel true (isControlPlaneReady c.Name c.Namespace podItems)
                (hasDNSSync c.Name c.Namespace allSvcItems)
                (hasNodeSync c.Name c.Namespace allSvcItems)
                (workloadSyncSplit c.Name c.Namespace allPodItems).1
                (workloadSyncSplit c.Name c.Namespace allPodItems).2).2,
            LastChecked := r.now }) ∧
      ∀ e ∈ obj.Status.SyncCoverage,
        e.WorkloadSync = (e.SystemWorkloadSync || e.TenantWorkloadSync) ∧
        (e.Score, e.Level) =
          computeScoreLevel e.ApiSync e.ControlPlaneReady e.DnsSync e.NodeSync
            e.SystemWorkloadSync e.TenantWorkloadSync ∧
        e.LastChecked = r.now := by
  refine ⟨{ vh with Status :=
              { vh.Status with
                Clusters := discover svcItems,
                SyncCoverage :=
                  (discover svcItems).map
                    (evaluateEndpoint podItems allSvcItems allPodItems r.now) } },
          ?_, rfl, ?_, rfl, ?_⟩
  · rw [Reconcile_calls_of_lists_ok r req vh svcItems allSvcItems podItems allPodItems
      h h1 h2 h3 h4, syncCoverageLoop_eq, List.nil_append]
    rfl
  · exact List.length_map _ _
  · intro e he
    obtain ⟨c, _, rfl⟩ := List.mem_map.mp he
    exact ⟨rfl, rfl, rfl⟩

/-- C20 on the sample cycle: one endpoint, one entry, evaluated to 66 and "Partial". -/
theorem written_coverage_shape_witness :
    ∃ obj : VClusterHealth,
      statusUpdates (Reconcile (sampleClient sampleStored 5) sampleRequest).calls = [obj] ∧
      obj.Status.Clusters = discover (sampleServices.take 2) ∧
      obj.Status.SyncCoverage.length = obj.Status.Clusters.length := by
  obtain ⟨obj, h1, h2, h3, _⟩ :=
    written_coverage_shape (sampleClient sampleStored 5) sampleRequest
      { Spec := { IntervalSeconds := 60 }, Status := sampleStored }
      (sampleServices.take 2) sampleServices samplePods samplePods rfl rfl rfl rfl rfl
  exact ⟨obj, h1, h2, h3⟩

/-! ## The interval floor and the target scope -/

/-- C21 fails on the code: with `IntervalSeconds = 5`, a valid value of the field, the
resolved interval is five seconds, below thirty, and it is what `Reconcile` returns as
`RequeueAfter`. -/
theorem resolveInterval_below_thirty :
    resolveInterval 5 = 5 * Second ∧
    resolveInterval 5 < 30 * Second ∧
    (Reconcile
      { get := fun _ => Except.ok { Spec := { IntervalSeconds := 5 } },
        listVClusterServices := fun _ => Except.ok [],
        listAllServices := fun _ => Except.ok [],
        listPods := fun _ => Except.ok [],
        listAllPods := fun _ => Except.ok [],
        statusUpdate := fun _ => none,
        now := 0 }
      { Namespace := "default", Name := "fleet" }).result.RequeueAfter = 5000000000 := by
  decide

/-- C22: an empty `Spec.Namespace` resolves to the namespace "vcluster"; "*" and "all"
resolve to a discovery query without namespace restriction; every other value restricts the
query to exactly that namespace; the discovery query always carries the label selector
`app=vcluster`; and in a cycle the discovery query is the first list call, every later list
call being made with the zero options, without namespace or label restriction. -/
theorem target_scope_resolution (specNamespace : String) :
    discoveryListOptions "" =
      { LabelSelector := some [("app", "vcluster")], Namespace := "vcluster" } ∧
    discoveryListOptions "*" = { LabelSelector := some [("app", "vcluster")], Namespace := "" } ∧
    discoveryListOptions "all" =
      { LabelSelector := some [("app", "vcluster")], Namespace := "" } ∧
    (specNamespace ≠ "" → specNamespace ≠ "*" → specNamespace ≠ "all" →
      discoveryListOptions specNamespace =
        { LabelSelector := some [("app", "vcluster")], Namespace := specNamespace }) ∧
    (discoveryListOptions specNamespace).LabelSelector = some [("app", "vcluster")] ∧
    (∀ (r : Client) (req : NamespacedName) (vh : VClusterHealth),
      r.get req = Except.ok vh → vh.Spec.Namespace = specNamespace →
      ∃ rest : List Call,
        (Reconcile r req).calls =
          Call.get req :: Call.listServices (discoveryListOptions specNamespace) :: rest ∧
        ∀ c ∈ rest,
          c = Call.listServices { LabelSelector := none, Namespace := "" } ∨
          c = Call.listPods { LabelSelector := none, Namespace := "" } ∨
          ∃ obj, c = Call.statusUpdate obj) := by
  refine ⟨by decide, by decide, by decide, ?_, ?_, ?_⟩
  · intro h1 h2 h3
    simp [discoveryListOptions, h1, h2, h3]
  · unfold discoveryListOptions
    dsimp only
    split <;> split <;> rfl
  · intro r req vh h hns
    subst hns
    rw [Reconcile_of_loaded r req vh h]
    cases r.listVClusterServices (discoveryListOptions vh.Spec.Namespace) with
    | error e => exact ⟨[], rfl, by simp⟩
    | ok svcItems =>
      dsimp only
      cases r.listAllServices {} with
      | error e => exact ⟨_, rfl, by simp⟩
      | ok allSvcItems =>
        dsimp only
        cases r.listPods {} with
        | error e => exact ⟨_, rfl, by simp⟩
        | ok podItems =>
          dsimp only
          cases r.listAllPods {} with
          | error e => exact ⟨_, rfl, by simp⟩
          | ok allPodItems => exact ⟨_, rfl, by simp⟩

/-- C22 on a named namespace and on the sample cycle, whose resource leaves the namespace
empty. -/
theorem target_scope_resolution_witness :
    discoveryListOptions "team-a" =
      { LabelSelector := some [("app", "vcluster")], Namespace := "team-a" } ∧
    ∃ rest : List Call,
      (Reconcile (sampleClient sampleStored 5) sampleRequest).calls =
        Call.get sampleRequest :: Call.listServices (discoveryListOptions "") :: rest :=
  ⟨(target_scope_resolution "team-a").2.2.2.1 (by decide) (by decide) (by decide),
   ((target_scope_resolution "").2.2.2.2.2 (sampleClient sampleStored 5) sampleRequest
      { Spec := { IntervalSeconds := 60 }, Status := sampleStored } rfl rfl).imp
     (fun _ h => h.1)⟩

/-! ## Monotonicity of the scorer -/

theorem trueCount_le_six (a b c d e f : Bool) : trueCount a b c d e f ≤ 6 := by
  cases a <;> cases b <;> cases c <;> cases d <;> cases e <;> cases f <;> decide

/-- The truncated percentage separates the seven possible counts. -/
theorem score_of_count_injective (k1 k2 : Nat) (h1 : k1 ≤ 6) (h2 : k2 ≤ 6)
    (h : Int.tdiv ((k1 : Int) * 100) 6 = Int.tdiv ((k2 : Int) * 100) 6) : k1 = k2 := by
  interval_cases k1 <;> interval_cases k2 <;> first | rfl | (exfalso; revert h; decide)

/-- C23: `computeScoreLevel` is strictly monotone in every signal: whatever the other five
signals are, turning one signal from false to true raises the score by 16 or 17 and does not
lower the level in the order None, Partial, Full. Hence equal scores mean equal numbers of
true signals, the level is "None" iff the score is 0 and "Full" iff the score is 100. -/
theorem computeScoreLevel_monotone (a b c d e f : Bool) :
    RaisesOneStep (computeScoreLevel false b c d e f) (computeScoreLevel true b c d e f) ∧
    RaisesOneStep (computeScoreLevel a false c d e f) (computeScoreLevel a true c d e f) ∧
    RaisesOneStep (computeScoreLevel a b false d e f) (computeScoreLevel a b true d e f) ∧
    RaisesOneStep (computeScoreLevel a b c false e f) (computeScoreLevel a b c true e f) ∧
    RaisesOneStep (computeScoreLevel a b c d false f) (computeScoreLevel a b c d true f) ∧
    RaisesOneStep (computeScoreLevel a b c d e false) (computeScoreLevel a b c d e true) ∧
    (∀ a' b' c' d' e' f' : Bool,
      (computeScoreLevel a' b' c' d' e' f').1 = (computeScoreLevel a b c d e f).1 →
      trueCount a' b' c' d' e' f' = trueCount a b c d e f) ∧
    ((computeScoreLevel a b c d e f).2 = "None" ↔ (computeScoreLevel a b c d e f).1 = 0) ∧
    ((computeScoreLevel a b c d e f).2 = "Full" ↔ (computeScoreLevel a b c d e f).1 = 100) := by
  refine ⟨?_, ?_, ?_, ?_, ?_, ?_, ?_, ?_, ?_⟩
  · cases b <;> cases c <;> cases d <;> cases e <;> cases f <;> decide
  · cases a <;> cases c <;> cases d <;> cases e <;> cases f <;> decide
  · cases a <;> cases b <;> cases d <;> cases e <;> cases f <;> decide
  · cases a <;> cases b <;> cases c <;> cases e <;> cases f <;> decide
  · cases a <;> cases b <;> cases c <;> cases d <;> cases f <;> decide
  · cases a <;> cases b <;> cases c <;> cases d <;> cases e <;> decide
  · intro a' b' c' d' e' f' h
    rw [computeScoreLevel_eq_count, computeScoreLevel_eq_count] at h
    exact score_of_count_injective _ _ (trueCount_le_six a' b' c' d' e' f')
      (trueCount_le_six a b c d e f) h
  · cases a <;> cases b <;> cases c <;> cases d <;> cases e <;> cases f <;> decide
  · cases a <;> cases b <;> cases c <;> cases d <;> cases e <;> cases f <;> decide

/-- C23 on two vectors with the score 50: both have three true signals. -/
theorem computeScoreLevel_monotone_witness :
    trueCount false true false true false true = trueCount true true true false false false :=
  (computeScoreLevel_monotone true true true false false false).2.2.2.2.2.2.1
    false true false true false true (by decide)

/-! ## Overlapping names, order and growth of the snapshot -/

theorem IsSubstr.trans {a b c : String} (hab : IsSubstr a b) (hbc : IsSubstr b c) :
    IsSubstr a c := by
  rw [isSubstr_iff_data] at hab hbc ⊢
  exact List.IsInfix.trans hab hbc

/-- A suffix followed by a marker occurs in the whole name followed by the marker. -/
theorem isSubstr_append_of_suffix (name1 name2 u marker : String) (h : name2 = u ++ name1) :
    IsSubstr (name1 ++ marker) (name2 ++ marker) := by
  refine ⟨u, "", ?_⟩
  rw [h]
  apply String.ext
  simp [String.data_append]

/-- C24: signals leak between vClusters whose names overlap. If `name1` occurs in `name2`,
`hasDNSSync` for `name2` implies `hasDNSSync` for `name1`; if `name1` is a suffix of `name2`,
`hasNodeSync` for `name2` implies `hasNodeSync` for `name1`; the single service
"kube-dns-x-kube-system-x-vc-prod" makes `hasDNSSync` true for "vc-prod" and for "vc". -/
theorem signals_leak_between_names (name1 name2 ns : String) (services : List Service) :
    (IsSubstr name1 name2 → hasDNSSync name2 ns services = true →
      hasDNSSync name1 ns services = true) ∧
    ((∃ u : String, name2 = u ++ name1) → hasNodeSync name2 ns services = true →
      hasNodeSync name1 ns services = true) ∧
    (hasDNSSync "vc-prod" "vcluster"
        [{ Name := "kube-dns-x-kube-system-x-vc-prod", Namespace := "vcluster" }] = true ∧
      hasDNSSync "vc" "vcluster"
        [{ Name := "kube-dns-x-kube-system-x-vc-prod", Namespace := "vcluster" }] = true) := by
  refine ⟨?_, ?_, by decide, by decide⟩
  · intro hsub h
    rw [hasDNSSync_iff] at h ⊢
    obtain ⟨s, hs, hns, hk, hn⟩ := h
    exact ⟨s, hs, hns, hk, hsub.trans hn⟩
  · rintro ⟨u, hu⟩ h
    have h' : hasNodeSyncLoop ns (name2 ++ "-node-") services = true := h
    show hasNodeSyncLoop ns (name1 ++ "-node-") services = true
    rw [hasNodeSyncLoop_iff] at h' ⊢
    obtain ⟨s, hs, hns, hn⟩ := h'
    exact ⟨s, hs, hns, (isSubstr_append_of_suffix name1 name2 u "-node-" hu).trans hn⟩

/-- C24 on the node-mapping service of the vCluster "team-vc": it also counts for the
vCluster "vc", a suffix of that name. -/
theorem signals_leak_between_names_witness :
    hasNodeSync "vc" "vcluster"
      [{ Name := "team-vc-node-worker-0", Namespace := "vcluster" }] = true :=
  (signals_leak_between_names "vc" "team-vc" "vcluster" _).2.1 ⟨"team-", by decide⟩ (by decide)

/-- C25: `workloadSyncSplit`, `hasWorkloadSync`, `hasDNSSync` and `hasNodeSync` return the
same result on every permutation of the snapshot, and appending elements to the snapshot
never turns a true flag false; `isControlPlaneReady` is not invariant under permutation:
two pod lists that are permutations of each other give different values. -/
theorem snapshot_order_and_growth (name ns : String) (pods pods' morePods : List Pod)
    (services services' moreServices : List Service) :
    (pods.Perm pods' →
      workloadSyncSplit name ns pods = workloadSyncSplit name ns pods' ∧
      hasWorkloadSync name ns pods = hasWorkloadSync name ns pods') ∧
    (services.Perm services' →
      hasDNSSync name ns services = hasDNSSync name ns services' ∧
      hasNodeSync name ns services = hasNodeSync name ns services') ∧
    ((workloadSyncSplit name ns pods).1 = true →
      (workloadSyncSplit name ns (pods ++ morePods)).1 = true) ∧
    ((workloadSyncSplit name ns pods).2 = true →
      (workloadSyncSplit name ns (pods ++ morePods)).2 = true) ∧
    (hasWorkloadSync name ns pods = true → hasWorkloadSync name ns (pods ++ morePods) = true) ∧
    (hasDNSSync name ns services = true →
      hasDNSSync name ns (services ++ moreServices) = true) ∧
    (hasNodeSync name ns services = true →
      hasNodeSync name ns (services ++ moreServices) = true) ∧
    (List.Perm
        [({ Name := "vc-prod-0", Namespace := "vcluster", Phase := "Pending" } : Pod),
         { Name := "vc-prod-0", Namespace := "vcluster", Phase := "Running",
           Conditions := [⟨"Ready", "True"⟩] }]
        [{ Name := "vc-prod-0", Namespace := "vcluster", Phase := "Running",
           Conditions := [⟨"Ready", "True"⟩] },
         { Name := "vc-prod-0", Namespace := "vcluster", Phase := "Pending" }] ∧
      isControlPlaneReady "vc-prod" "vcluster"
        [{ Name := "vc-prod-0", Namespace := "vcluster", Phase := "Pending" },
         { Name := "vc-prod-0", Namespace := "vcluster", Phase := "Running",
           Conditions := [⟨"Ready", "True"⟩] }] = false ∧
      isControlPlaneReady "vc-prod" "vcluster"
        [{ Name := "vc-prod-0", Namespace := "vcluster", Phase := "Running",
           Conditions := [⟨"Ready", "True"⟩] },
         { Name := "vc-prod-0", Namespace := "vcluster", Phase := "Pending" }] = true) := by
  refine ⟨?_, ?_, ?_, ?_, ?_, ?_, ?_, List.Perm.swap _ _ _, by decide, by decide⟩
  · intro hperm
    refine ⟨?_, ?_⟩
    · apply Prod.ext
      · apply bool_eq_of_iff
        rw [workloadSyncSplit_fst_iff, workloadSyncSplit_fst_iff]
        exact ⟨fun ⟨p, hp, h⟩ => ⟨p, hperm.mem_iff.mp hp, h⟩,
          fun ⟨p, hp, h⟩ => ⟨p, hperm.mem_iff.mpr hp, h⟩⟩
      · apply bool_eq_of_iff
        rw [workloadSyncSplit_snd_iff, workloadSyncSplit_snd_iff]
        exact ⟨fun ⟨p, hp, h⟩ => ⟨p, hperm.mem_iff.mp hp, h⟩,
          fun ⟨p, hp, h⟩ => ⟨p, hperm.mem_iff.mpr hp, h⟩⟩
    · apply bool_eq_of_iff
      rw [hasWorkloadSync_iff, hasWorkloadSync_iff]
      exact ⟨fun ⟨p, hp, h⟩ => ⟨p, hperm.mem_iff.mp hp, h⟩,
        fun ⟨p, hp, h⟩ => ⟨p, hperm.mem_iff.mpr hp, h⟩⟩
  · intro hperm
    refine ⟨?_, ?_⟩
    · apply bool_eq_of_iff
      rw [hasDNSSync_iff, hasDNSSync_iff]
      exact ⟨fun ⟨p, hp, h⟩ => ⟨p, hperm.mem_iff.mp hp, h⟩,
        fun ⟨p, hp, h⟩ => ⟨p, hperm.mem_iff.mpr hp, h⟩⟩
    · apply bool_eq_of_iff
      show hasNodeSyncLoop ns (name ++ "-node-") services = true ↔
        hasNodeSyncLoop ns (name ++ "-node-") services' = true
      rw [hasNodeSyncLoop_iff, hasNodeSyncLoop_iff]
      exact ⟨fun ⟨p, hp, h⟩ => ⟨p, hperm.mem_iff.mp hp, h⟩,
        fun ⟨p, hp, h⟩ => ⟨p, hperm.mem_iff.mpr hp, h⟩⟩
  · rw [workloadSyncSplit_fst_iff, workloadSyncSplit_fst_iff]
    exact fun ⟨p, hp, h⟩ => ⟨p, List.mem_append_left _ hp, h⟩
  · rw [workloadSyncSplit_snd_iff, workloadSyncSplit_snd_iff]
    exact fun ⟨p, hp, h⟩ => ⟨p, List.mem_append_left _ hp, h⟩
  · rw [hasWorkloadSync_iff, hasWorkloadSync_iff]
    exact fun ⟨p, hp, h⟩ => ⟨p, List.mem_append_left _ hp, h⟩
  · rw [hasDNSSync_iff, hasDNSSync_iff]
    exact fun ⟨p, hp, h⟩ => ⟨p, List.mem_append_left _ hp, h⟩
  · show hasNodeSyncLoop ns (name ++ "-node-") services = true →
      hasNodeSyncLoop ns (name ++ "-node-") (services ++ moreServices) = true
    rw [hasNodeSyncLoop_iff, hasNodeSyncLoop_iff]
    exact fun ⟨p, hp, h⟩ => ⟨p, List.mem_append_left _ hp, h⟩

/-- C25 on the sample pods in reverse order, and on the sample services with one more. -/
theorem snapshot_order_and_growth_witness :
    workloadSyncSplit "vc-prod" "vcluster" samplePods =
      workloadSyncSplit "vc-prod" "vcluster" samplePods.reverse ∧
    hasDNSSync "vc-prod" "vcluster"
      (sampleServices ++ [{ Name := "extra", Namespace := "vcluster" }]) = true :=
  ⟨((snapshot_order_and_growth "vc-prod" "vcluster" samplePods samplePods.reverse []
      [] [] []).1 (List.reverse_perm samplePods).symm).1,
   (snapshot_order_and_growth "vc-prod" "vcluster" [] [] [] sampleServices []
      [{ Name := "extra", Namespace := "vcluster" }]).2.2.2.2.2.1 (by decide)⟩

end HealthMirror
